import Mathlib

/- Verification development for the RenderMe360 extraction pipeline.

   The definitions below are a shallow embedding of the repository's
   container reader (renderme_360_reader_Annotated.py, class SMCReader)
   and of its streaming extraction orchestrator
   (extract_streaming_gdrive.py, class StreamingExtractor), together
   with the calibration block of extract_subject_FULL_both.py and the
   two mask-decoding functions of compare_mask_methods.py.

   Modelling conventions:
   - HDF5 groups are association lists from keys to payloads; keys for
     cameras are strings, keys for frames are natural numbers (the
     reader converts every frame id through str/int, and frame keys
     are decimal strings of those numbers).
   - Python dict insertion is dictInsert (replace in place or append),
     dict lookup is dictFind; assertion failures and KeyErrors are
     Except.error values; a soft "no data, return None" result is
     Except.ok none.
   - Compressed image payloads are modelled at the codec boundary, as
     the repository spec demands (codecs are out of scope): a stored
     blob is either a genuine 3-channel source (colorBytes, whose
     IMREAD_COLOR decode is the carried matrix) or a single-channel
     PNG (grayPng, whose IMREAD_COLOR decode replicates the channel
     three times and whose IMREAD_GRAYSCALE decode is the channel
     itself, which is what OpenCV does for such sources). The stored
     masks are single-channel PNGs (established in-repo by
     test_mask_format.py).
   - Pixel samples are naturals; the uint8 cast of numpy (astype) is
     reduction mod 256.
   - The extractor filesystem is an association list from file keys to
     contents. File keys are structured (FileKey) rather than path
     strings: each constructor stands for one path shape of the output
     tree, e.g. FileKey.image c f is images/cam_CC/frame_FFFFFF.jpg;
     distinct constructor arguments give distinct paths in the source
     because camera and frame numbers are zero-padded.  Directory
     creation (mkdir, exist_ok=True) is a no-op on this model.
   - Work counters count decode attempts and file writes; byte sizes,
     timestamps and log lines are not modelled (sizes are abstracted
     to file counts, timestamps are an opaque string parameter).
-/

namespace R360

/-! Association-list dictionaries (Python dict semantics). -/

def dictFind {α β : Type} [DecidableEq α] : List (α × β) → α → Option β
  | [], _ => none
  | (k0, v0) :: rest, k => if k0 = k then some v0 else dictFind rest k

def dictInsert {α β : Type} [DecidableEq α] : List (α × β) → α → β → List (α × β)
  | [], k, v => [(k, v)]
  | (k0, v0) :: rest, k, v =>
      if k0 = k then (k0, v) :: rest else (k0, v0) :: dictInsert rest k v

def keysOf {α β : Type} (m : List (α × β)) : List α := m.map Prod.fst

/-! Images.  Gray is a height-by-width matrix of samples; ColorImg has a
    channel list per pixel (numpy axis 2). -/

abbrev Gray := List (List Nat)
abbrev ColorImg := List (List (List Nat))

/-- A stored compressed image blob, described by its decode behaviour
(the codec itself is external to the repository). -/
inductive Encoded
  | colorBytes (c : ColorImg)
  | grayPng (g : Gray)
deriving DecidableEq

def replicate3 (g : Gray) : ColorImg :=
  g.map (fun row => row.map (fun v => [v, v, v]))

/-- cv2.imdecode with cv2.IMREAD_COLOR: a 3-channel source decodes to
itself, a single-channel PNG is replicated across three channels. -/
def imdecodeColor : Encoded → ColorImg
  | .colorBytes c => c
  | .grayPng g => replicate3 g

/-- cv2.imdecode with cv2.IMREAD_GRAYSCALE, modelled only on
single-channel sources (on a genuine color source OpenCV would apply a
luma formula, which is outside the modelled codec scope). -/
def imdecodeGrayscale : Encoded → Option Gray
  | .colorBytes _ => none
  | .grayPng g => some g

def listMax (l : List Nat) : Nat := l.foldl Nat.max 0

/-- np.max(img, 2).astype(np.uint8): per-pixel maximum across the
channel axis, cast to uint8. -/
def npMaxAxis2U8 (c : ColorImg) : Gray :=
  c.map (fun row => row.map (fun px => listMax px % 256))

/-- compare_mask_methods.extract_mask_current_method: decode the mask
bytes with IMREAD_COLOR, then collapse channels by per-pixel max and
cast to uint8 (this is also the reduction of the reader's get_img mask
path). -/
def extract_mask_current_method (e : Encoded) : Gray :=
  npMaxAxis2U8 (imdecodeColor e)

/-- compare_mask_methods.extract_mask_optimized_method: decode the mask
bytes directly with IMREAD_GRAYSCALE. -/
def extract_mask_optimized_method (e : Encoded) : Option Gray :=
  imdecodeGrayscale e

/-- All samples of a grayscale matrix fit in a byte. -/
def Gray8 (g : Gray) : Prop := ∀ row ∈ g, ∀ v ∈ row, v < 256

instance (g : Gray) : Decidable (Gray8 g) := by
  unfold Gray8; infer_instance

/-! The archive (one .smc HDF5 container), as read by SMCReader. -/

/-- One camera's calibration record: distortion, intrinsics, extrinsic
pose.  Matrix contents are opaque to every claim, so entries are plain
integer matrices. -/
structure CalibEntry where
  D : List (List Int)
  K : List (List Int)
  RT : List (List Int)
deriving DecidableEq

/-- Per-camera data inside the Camera group: the image-type subgroups
(keys such as "color" and "mask", each mapping frame number to a stored
blob) and, for camera 00 of speech captures, the audio dataset
(samples paired with the sample rate). -/
structure CamData where
  imageTypes : List (String × List (Nat × Encoded))
  audio : Option (List Int × Nat)
deriving DecidableEq

structure GroupKp2d where
  num_frame : Nat
  cams : List (String × List (Nat × List (List Int)))
deriving DecidableEq

structure GroupKp3d where
  num_frame : Nat
  frames : List (Nat × List (List Int))
deriving DecidableEq

abbrev FlameFrame := List (String × List Int)

structure GroupFlame where
  num_frame : Nat
  frames : List (Nat × FlameFrame)
deriving DecidableEq

structure ScanData where
  vertex : List (List Int)
  vertex_indices : List (List Nat)
deriving DecidableEq

/-- One opened .smc archive: top-level attributes plus the modality
groups.  Optional groups are absent from some archives (h5py raises
KeyError when an absent group is indexed). -/
structure Archive where
  actor_id : String
  performance_part : String
  num_device : Nat
  num_frame : Nat
  camera : List (String × CamData)
  calibG : List (String × CalibEntry)
  kp2d : Option GroupKp2d
  kp3d : Option GroupKp3d
  flame : Option GroupFlame
  uvTexture : Option (List (Nat × Encoded))
  scan : Option ScanData
  scanMask : Option (List (String × Encoded))
deriving DecidableEq

/-- Character membership in a string (the Python test letter in s). -/
def strHasChar (s : String) (c : Char) : Bool := s.toList.contains c

/-- Does the first underscore-separated token of performance_part
contain the given character?  This is the reader's capability test:
performance_part is split on underscores and the letter is looked up
in the first token (that token is exactly the prefix before the first
underscore). -/
def partHas (a : Archive) (c : Char) : Bool :=
  (a.performance_part.toList.takeWhile (fun x => x ≠ '_')).contains c

/-- Zero-padded two-digit camera id string, as produced by the format
string percent-02d in the source. -/
def pad2 (n : Nat) : String :=
  if n < 10 then "0" ++ toString n else toString n

/-! Reader accessors.  Each mirrors one method of SMCReader; assertion
failures and KeyErrors become Except.error, the routine "no data"
answer becomes Except.ok none. -/

inductive Decoded
  | colorI (img : ColorImg)
  | grayI (g : Gray)
deriving DecidableEq

inductive ImgOut
  | single (d : Decoded)
  | batch (ds : List Decoded)
deriving DecidableEq

/-- The Frame_id argument of get_img: a single frame, a list of frames,
or None for all frames. -/
inductive FrameSel
  | one (f : Nat)
  | many (l : List Nat)
  | all

/-- SMCReader.get_img restricted to a single frame: validate the
camera, the image type and the frame (assertions), decode with
IMREAD_COLOR, and for masks collapse channels by per-pixel max cast to
uint8. -/
def getImgSingle (a : Archive) (camId imgType : String) (f : Nat) :
    Except String Decoded :=
  match dictFind a.camera camId with
  | none => .error ("Invalid Camera_id " ++ camId)
  | some cam =>
    match dictFind cam.imageTypes imgType with
    | none => .error ("Invalid Image_type " ++ imgType)
    | some frames =>
      match dictFind frames f with
      | none => .error "Invalid Frame_id"
      | some e =>
        let img := imdecodeColor e
        if imgType = "mask" then .ok (.grayI (npMaxAxis2U8 img))
        else .ok (.colorI img)

/-- Run an effectful step over a list, stopping at the first raised
error (the reader's batch loops append one decoded frame at a time and
an exception aborts the whole loop). -/
def exceptMap {ε α β : Type} (g : α → Except ε β) : List α → Except ε (List β)
  | [] => .ok []
  | x :: xs =>
    match g x with
    | .error e => .error e
    | .ok y =>
      match exceptMap g xs with
      | .error e => .error e
      | .ok ys => .ok (y :: ys)

/-- SMCReader.get_img: single frame, list of frames (returned in input
order), or all frames (returned in ascending numeric key order); the
final np.stack raises on an empty batch. -/
def get_img (a : Archive) (camId imgType : String) (sel : FrameSel) :
    Except String ImgOut :=
  match dictFind a.camera camId with
  | none => .error ("Invalid Camera_id " ++ camId)
  | some cam =>
    match dictFind cam.imageTypes imgType with
    | none => .error ("Invalid Image_type " ++ imgType)
    | some frames =>
      match sel with
      | .one f => (getImgSingle a camId imgType f).map ImgOut.single
      | .many l =>
        match exceptMap (getImgSingle a camId imgType) l with
        | .error e => .error e
        | .ok ds =>
          if ds.isEmpty then .error "need at least one array to stack"
          else .ok (.batch ds)
      | .all =>
        let ids := List.insertionSort (· ≤ ·) (keysOf frames)
        match exceptMap (getImgSingle a camId imgType) ids with
        | .error e => .error e
        | .ok ds =>
          if ds.isEmpty then .error "need at least one array to stack"
          else .ok (.batch ds)

/-- SMCReader.get_audio: speech gate first (None when the performance
part has no letter s), then the audio dataset of camera 00 (KeyError
if absent). -/
def get_audio (a : Archive) : Except String (Option (List Int × Nat)) :=
  if partHas a 's' then
    match dictFind a.camera "00" with
    | none => .error "KeyError: Camera 00"
    | some cd =>
      match cd.audio with
      | none => .error "KeyError: audio"
      | some d => .ok (some d)
  else .ok none

/-- SMCReader.get_Keypoints2d for a single frame: hard validation of
the camera range (only cameras 18 to 32 carry detectors) and of the
frame bound, soft None when the camera has no detections at all or the
frame has none. -/
def get_Keypoints2d (a : Archive) (camId : String) (f : Nat) :
    Except String (Option (List (List Int))) :=
  if camId ∈ (List.range' 18 15).map pad2 then
    match a.kp2d with
    | none => .error "KeyError: Keypoints2d"
    | some g =>
      match dictFind g.cams camId with
      | none => .ok none
      | some frames =>
        if f < g.num_frame then
          match dictFind frames f with
          | none => .ok none
          | some k => if k.length = 0 then .ok none else .ok (some k)
        else .error "Invalid frame_index"
  else .error ("Invalid Camera_id " ++ camId)

/-- SMCReader.get_Keypoints3d for a single frame: no capability gate —
the Keypoints3d group is indexed unconditionally (KeyError when the
archive has none), then bound check, then soft None for a missing or
empty frame. -/
def get_Keypoints3d (a : Archive) (f : Nat) :
    Except String (Option (List (List Int))) :=
  match a.kp3d with
  | none => .error "KeyError: Keypoints3d"
  | some g =>
    if f < g.num_frame then
      match dictFind g.frames f with
      | none => .ok none
      | some k => if k.length = 0 then .ok none else .ok (some k)
    else .error "Invalid frame_index"

/-- SMCReader.get_FLAME for a single frame: expression gate (None),
soft None when the FLAME group is absent, frame-bound assertion, then
direct indexing of the frame (KeyError when that key is missing). -/
def get_FLAME (a : Archive) (f : Nat) : Except String (Option FlameFrame) :=
  if partHas a 'e' then
    match a.flame with
    | none => .ok none
    | some g =>
      if f < g.num_frame then
        match dictFind g.frames f with
        | none => .error "KeyError: FLAME frame"
        | some d => .ok (some d)
      else .error "Invalid frame_index"
  else .ok none

/-- SMCReader.get_uv for a single frame: expression gate (None), soft
None when the UV_texture group is absent, frame-membership assertion,
then decode. -/
def get_uv (a : Archive) (f : Nat) : Except String (Option ColorImg) :=
  if partHas a 'e' then
    match a.uvTexture with
    | none => .ok none
    | some frames =>
      match dictFind frames f with
      | none => .error "Invalid Frame_id"
      | some e => .ok (some (imdecodeColor e))
  else .ok none

/-- SMCReader.get_scanmesh: expression gate (None), then unconditional
indexing of the Scan group (KeyError when absent). -/
def get_scanmesh (a : Archive) : Except String (Option ScanData) :=
  if partHas a 'e' then
    match a.scan with
    | none => .error "KeyError: Scan"
    | some s => .ok (some s)
  else .ok none

/-- SMCReader.get_scanmask for one camera: no capability gate — after
the camera-id assertion the ScanMask group is indexed unconditionally
(KeyError when the archive has none), then decode and collapse
channels. -/
def get_scanmask (a : Archive) (camId : String) : Except String Gray :=
  if camId ∈ keysOf a.camera then
    match a.scanMask with
    | none => .error "KeyError: ScanMask"
    | some g =>
      match dictFind g camId with
      | none => .error "KeyError: ScanMask camera"
      | some e => .ok (npMaxAxis2U8 (imdecodeColor e))
  else .error ("Invalid Camera_id " ++ camId)

/-! Calibration cache.  SMCReader keeps a per-handle memo dictionary,
None until the first get_Calibration_all; loadCount counts how many
times the expensive Calibration-group walk ran. -/

structure ReaderState where
  a : Archive
  calibCache : Option (List (String × CalibEntry))
  loadCount : Nat
deriving DecidableEq

/-- SMCReader.__init__: open the archive with an empty cache. -/
def mkReader (a : Archive) : ReaderState := ⟨a, none, 0⟩

/-- The cache-filling loop of get_Calibration_all: for each camera key
of the Calibration group, insert a record with the D, K and RT
datasets into a fresh dictionary. -/
def buildCalibDict (g : List (String × CalibEntry)) : List (String × CalibEntry) :=
  g.foldl (fun acc kv => dictInsert acc kv.fst ⟨kv.snd.D, kv.snd.K, kv.snd.RT⟩) []

/-- SMCReader.get_Calibration_all: return the cached dictionary if
present, otherwise walk the Calibration group once, cache and return
the result. -/
def get_Calibration_all (s : ReaderState) :
    List (String × CalibEntry) × ReaderState :=
  match s.calibCache with
  | some d => (d, s)
  | none =>
    let d := buildCalibDict s.a.calibG
    (d, { s with calibCache := some d, loadCount := s.loadCount + 1 })

/-- SMCReader.get_Calibration: assert the camera is in the Calibration
group, then read its D, K and RT datasets fresh (never through the
cache). -/
def get_Calibration (s : ReaderState) (camId : String) :
    Except String CalibEntry :=
  match dictFind s.a.calibG camId with
  | none => .error ("Invalid Camera_id " ++ camId)
  | some e => .ok ⟨e.D, e.K, e.RT⟩

/-! Reader interface used by the image/mask extractor: the orchestrator
only ever asks for single-frame color and mask decodes.  withFaults
injects decode failures (the exception a broken blob would raise inside
cv2/np for chosen camera and frame pairs), as the spec's
failure-isolation property prescribes. -/

structure ReaderIF where
  getColor : String → Nat → Except String ColorImg
  getMask : String → Nat → Except String Gray

def ReaderIF.ofArchive (a : Archive) : ReaderIF where
  getColor := fun c f =>
    match getImgSingle a c "color" f with
    | .ok (.colorI img) => .ok img
    | .ok (.grayI _) => .error "unexpected mask payload"
    | .error e => .error e
  getMask := fun c f =>
    match getImgSingle a c "mask" f with
    | .ok (.grayI g) => .ok g
    | .ok (.colorI _) => .error "unexpected color payload"
    | .error e => .error e

def ReaderIF.withFaults (r : ReaderIF) (bad : String → Nat → Bool) : ReaderIF where
  getColor := fun c f => if bad c f then .error "injected decode failure" else r.getColor c f
  getMask := fun c f => if bad c f then .error "injected decode failure" else r.getMask c f

/-! Extractor filesystem.  One output tree per (subject, performance)
task; each FileKey constructor is one path shape of section 6 of the
design. -/

inductive FileKey
  | metadataInfo
  | calibAll
  | calibCam (cam : Nat)
  | audioMp3
  | audioNpz
  | image (cam : Nat) (frame : Nat)
  | maskF (cam : Nat) (frame : Nat)
  | kp2dCam (cam : Nat)
  | kp3dAll
  | flameAll
  | uvFrame (frame : Nat)
  | scanMesh
  | scanMaskCam (cam : Nat)
  | marker
deriving DecidableEq

inductive FileData
  | jpg (img : ColorImg)
  | png (g : Gray)
  | npyAllCams (d : List (String × CalibEntry))
  | npyCam (e : CalibEntry)
  | mp3
  | npzAudio
  | npzKp2d (d : List (Nat × List (List Int)))
  | npzKp3d (d : List (Nat × List (List Int)))
  | npzFlame (d : List (Nat × FlameFrame))
  | ply (s : ScanData)
  | text (s : String)
deriving DecidableEq

abbrev FS := List (FileKey × FileData)

/-- int(cam_id) on a decimal key string. -/
def strToNat (s : String) : Nat :=
  s.toList.foldl (fun acc c => acc * 10 + (c.toNat - 48)) 0

/-- sorted([int(cam_id) for cam_id in reader.smc Camera keys]) — the
camera ids actually present in the archive, ascending. -/
def availableCameras (a : Archive) : List Nat :=
  List.insertionSort (· ≤ ·) ((keysOf a.camera).map strToNat)

/-- range(0, total, step) of Python, as a list. -/
def sampleFrames (total step : Nat) : List Nat :=
  List.range' 0 ((total + step - 1) / step) step

/-! Modality extractors of StreamingExtractor.  Each returns the new
filesystem together with the number of decode attempts and file writes
it performed. -/

/-- StreamingExtractor.extract_metadata: write metadata/info.json. -/
def extract_metadata (fs : FS) : FS × Nat :=
  (dictInsert fs FileKey.metadataInfo (.text "info"), 1)

/-- The filtering loop of StreamingExtractor.extract_calibration: keep
a calibration entry only when its camera id is among the cameras
confirmed present in the archive. -/
def filteredCalibs (all : List (String × CalibEntry)) (available : List Nat) :
    List (String × CalibEntry) :=
  available.foldl (fun acc c =>
    match dictFind all (pad2 c) with
    | some e => dictInsert acc (pad2 c) e
    | none => acc) []

/-- The per-camera save loop of StreamingExtractor.extract_calibration:
one cam_NN.npy per selected camera that survived the filter. -/
def scCalibLoop (filtered : List (String × CalibEntry)) :
    List Nat → FS × Nat → FS × Nat
  | [], acc => acc
  | c :: rest, acc =>
    match dictFind filtered (pad2 c) with
    | some e =>
        scCalibLoop filtered rest
          (dictInsert acc.fst (FileKey.calibCam c) (.npyCam e), acc.snd + 1)
    | none => scCalibLoop filtered rest acc

/-- StreamingExtractor.extract_calibration: read the full calibration
dictionary, filter it down to cameras confirmed present in the archive
(available_cameras), save calibration/all_cameras.npy, then save the
per-camera files. -/
def extract_calibration (a : Archive) (fs : FS)
    (camera_list available : List Nat) : FS × Nat :=
  let all_calibs := (get_Calibration_all (mkReader a)).fst
  let filtered := filteredCalibs all_calibs available
  let fs1 := dictInsert fs FileKey.calibAll (.npyAllCams filtered)
  scCalibLoop filtered camera_list (fs1, 1)

/-- StreamingExtractor.extract_audio: everything inside a try — a gate
None writes nothing, a KeyError is swallowed, a real payload is saved
as audio.mp3 and audio_data.npz. -/
def extract_audio (a : Archive) (fs : FS) : FS × Nat :=
  match get_audio a with
  | .ok (some _) =>
      (dictInsert (dictInsert fs FileKey.audioMp3 .mp3) FileKey.audioNpz .npzAudio, 2)
  | _ => (fs, 0)

/-- The per-artifact pattern of extract_images_and_masks: skip when the
destination file already exists, otherwise attempt the decode inside a
try (a raised decode error is caught and nothing is written; the work
counter records the decode attempt). -/
def guardedWrite (fs : FS) (w : Nat) (key : FileKey)
    (res : Except String FileData) : FS × Nat :=
  if (dictFind fs key).isNone then
    match res with
    | .ok d => (dictInsert fs key d, w + 1)
    | .error _ => (fs, w + 1)
  else (fs, w)

/-- One frame of StreamingExtractor.extract_images_and_masks: the
color image artifact first, then the mask artifact. -/
def imStep (r : ReaderIF) (doImg doMask : Bool) (cam : Nat)
    (acc : FS × Nat) (f : Nat) : FS × Nat :=
  let acc1 :=
    if doImg then
      guardedWrite acc.fst acc.snd (FileKey.image cam f)
        ((r.getColor (pad2 cam) f).map .jpg)
    else acc
  if doMask then
    guardedWrite acc1.fst acc1.snd (FileKey.maskF cam f)
      ((r.getMask (pad2 cam) f).map .png)
  else acc1

def imFrames (r : ReaderIF) (doImg doMask : Bool) (cam : Nat) :
    List Nat → FS × Nat → FS × Nat
  | [], acc => acc
  | f :: rest, acc => imFrames r doImg doMask cam rest (imStep r doImg doMask cam acc f)

def imCams (r : ReaderIF) (doImg doMask : Bool) (total : Nat) :
    List Nat → FS × Nat → FS × Nat
  | [], acc => acc
  | c :: rest, acc =>
      imCams r doImg doMask total rest (imFrames r doImg doMask c (List.range total) acc)

/-- Membership of a modality name in the configured modality list, as
the Boolean the extractor branches on. -/
def modOn (mods : List String) (m : String) : Bool := m ∈ mods

/-- StreamingExtractor.extract_images_and_masks: per requested camera,
per frame in range(total_frames), extract color and mask with
per-frame existence checks and per-frame exception isolation. -/
def extract_images_and_masks (r : ReaderIF) (fs : FS)
    (camera_list : List Nat) (total : Nat) (mods : List String) : FS × Nat :=
  imCams r (modOn mods "images") (modOn mods "masks") total camera_list (fs, 0)

/-- The per-camera collection loop of extract_keypoints2d: frames
sampled every 10, each get wrapped in try/except-pass. -/
def kp2dCollect (a : Archive) (total cam : Nat) : List (Nat × List (List Int)) :=
  (sampleFrames total 10).foldl (fun acc f =>
    match get_Keypoints2d a (pad2 cam) f with
    | .ok (some k) => acc ++ [(f, k)]
    | _ => acc) []

def kp2dLoop (a : Archive) (total : Nat) : List Nat → FS × Nat → FS × Nat
  | [], acc => acc
  | cam :: rest, acc =>
    if (kp2dCollect a total cam).isEmpty then kp2dLoop a total rest acc
    else kp2dLoop a total rest
      (dictInsert acc.fst (FileKey.kp2dCam cam)
        (.npzKp2d (kp2dCollect a total cam)), acc.snd + 1)

/-- StreamingExtractor.extract_keypoints2d: cameras 18 to 32, a camera
file is written only when its collection found anything. -/
def extract_keypoints2d (a : Archive) (fs : FS) (total : Nat) : FS × Nat :=
  kp2dLoop a total (List.range' 18 15) (fs, 0)

/-- The collection loop of extract_keypoints3d: frames sampled every
10, each get wrapped in try/except-pass. -/
def kp3dCollect (a : Archive) (total : Nat) : List (Nat × List (List Int)) :=
  (sampleFrames total 10).foldl (fun acc f =>
    match get_Keypoints3d a f with
    | .ok (some k) => acc ++ [(f, k)]
    | _ => acc) []

/-- StreamingExtractor.extract_keypoints3d: all_frames.npz written when
the collection is non-empty. -/
def extract_keypoints3d (a : Archive) (fs : FS) (total : Nat) : FS × Nat :=
  if (kp3dCollect a total).isEmpty then (fs, 0)
  else (dictInsert fs FileKey.kp3dAll (.npzKp3d (kp3dCollect a total)), 1)

/-- The frame loop of StreamingExtractor.extract_flame: no per-frame
try, so a raised error aborts the whole modality (the outer try catches
it and nothing is saved). -/
def flameLoop (a : Archive) : List Nat → List (Nat × FlameFrame) →
    Option (List (Nat × FlameFrame))
  | [], acc => some acc
  | f :: rest, acc =>
    match get_FLAME a f with
    | .error _ => none
    | .ok (some d) => flameLoop a rest (acc ++ [(f, d)])
    | .ok none => flameLoop a rest acc

/-- StreamingExtractor.extract_flame: frames sampled every 5; the
collected dictionary is saved only when the loop finished and found
anything. -/
def extract_flame (a : Archive) (fs : FS) (total : Nat) : FS × Nat :=
  match flameLoop a (sampleFrames total 5) [] with
  | none => (fs, 0)
  | some d =>
    if d.isEmpty then (fs, 0)
    else (dictInsert fs FileKey.flameAll (.npzFlame d), 1)

/-- The frame loop of StreamingExtractor.extract_uv_textures: every
30th frame is decoded and written unconditionally — there is no
destination-existence check; an error aborts the loop (outer try). -/
def uvLoop (a : Archive) : List Nat → FS × Nat → FS × Nat
  | [], acc => acc
  | f :: rest, acc =>
    match get_uv a f with
    | .error _ => (acc.fst, acc.snd + 1)
    | .ok none => uvLoop a rest acc
    | .ok (some img) =>
        uvLoop a rest (dictInsert acc.fst (FileKey.uvFrame f) (.jpg img), acc.snd + 2)

/-- StreamingExtractor.extract_uv_textures. -/
def extract_uv_textures (a : Archive) (fs : FS) (total : Nat) : FS × Nat :=
  uvLoop a (sampleFrames total 30) (fs, 0)

/-- StreamingExtractor.extract_scan: save scan/mesh.ply when the mesh
exists; gate None and KeyError both leave the tree untouched. -/
def extract_scan (a : Archive) (fs : FS) : FS × Nat :=
  match get_scanmesh a with
  | .ok (some s) => (dictInsert fs FileKey.scanMesh (.ply s), 1)
  | _ => (fs, 0)

/-- The camera loop of StreamingExtractor.extract_scan_masks: an error
aborts the loop (outer try). -/
def smLoop (a : Archive) : List Nat → FS × Nat → FS × Nat
  | [], acc => acc
  | c :: rest, acc =>
    match get_scanmask a (pad2 c) with
    | .error _ => acc
    | .ok g => smLoop a rest (dictInsert acc.fst (FileKey.scanMaskCam c) (.png g), acc.snd + 1)

/-- StreamingExtractor.extract_scan_masks over the cameras actually
present in the archive. -/
def extract_scan_masks (a : Archive) (fs : FS) (available : List Nat) : FS × Nat :=
  smLoop a available (fs, 0)

/-! Manifest. -/

/-- One row of the manifest CSV. -/
structure ManifestRow where
  subject : String
  performance : String
  status : String
  cameras_extracted : Option Nat
  frames : Option Nat
  size_gb : Option Nat
  timestamp : Option String
  error : Option String
deriving DecidableEq

/-- The field assignments update_manifest applies to an existing row:
status and timestamp always, the optional fields only when the call
passed a value for them. -/
def applyRowUpdate (r : ManifestRow) (status : String)
    (cameras frames size_gb : Option Nat) (err : Option String)
    (now : String) : ManifestRow :=
  { r with
    status := status
    timestamp := some now
    cameras_extracted := if cameras.isSome then cameras else r.cameras_extracted
    frames := if frames.isSome then frames else r.frames
    size_gb := if size_gb.isSome then size_gb else r.size_gb
    error := if err.isSome then err else r.error }

def rowMatches (r : ManifestRow) (subj perf : String) : Bool :=
  r.subject == subj && r.performance == perf

/-- StreamingExtractor.update_manifest: update the first row matching
the (subject, performance) key in place, or append a new row; the
resulting table is immediately persisted. -/
def update_manifest (m : List ManifestRow) (subj perf status : String)
    (cameras frames size_gb : Option Nat) (err : Option String)
    (now : String) : List ManifestRow :=
  match m with
  | [] =>
      [{ subject := subj, performance := perf, status := status,
         cameras_extracted := cameras, frames := frames, size_gb := size_gb,
         timestamp := some now, error := err }]
  | r :: rest =>
    if rowMatches r subj perf then
      applyRowUpdate r status cameras frames size_gb err now :: rest
    else
      r :: update_manifest rest subj perf status cameras frames size_gb err now

/-! Orchestrator. -/

structure Config where
  cameras : Option (List Nat)
  modalities : List String
  force_reextract : Bool

/-- The camera-resolution logic at the top of extract_performance:
config value all takes every camera present in the archive, an
explicit list is filtered down to those actually present. -/
def resolvedCameras (cfg : Config) (a : Archive) : List Nat :=
  match cfg.cameras with
  | none => availableCameras a
  | some req => req.filter (fun c => c ∈ availableCameras a)

/-! The modality dispatch of extract_performance, one guarded stage per
source branch; each stage threads the filesystem and adds its work. -/

def stMeta (mods : List String) (p : FS × Nat) : FS × Nat :=
  if modOn mods "metadata" then
    ((extract_metadata p.fst).fst, p.snd + (extract_metadata p.fst).snd)
  else p

def stCalib (a : Archive) (mods : List String) (camera_list available : List Nat)
    (p : FS × Nat) : FS × Nat :=
  if modOn mods "calibration" then
    ((extract_calibration a p.fst camera_list available).fst,
     p.snd + (extract_calibration a p.fst camera_list available).snd)
  else p

def stAudio (a : Archive) (mods : List String) (perf : String)
    (p : FS × Nat) : FS × Nat :=
  if modOn mods "audio" && strHasChar perf 's' then
    ((extract_audio a p.fst).fst, p.snd + (extract_audio a p.fst).snd)
  else p

def stImages (r : ReaderIF) (mods : List String) (camera_list : List Nat)
    (total : Nat) (p : FS × Nat) : FS × Nat :=
  if modOn mods "images" || modOn mods "masks" then
    ((extract_images_and_masks r p.fst camera_list total mods).fst,
     p.snd + (extract_images_and_masks r p.fst camera_list total mods).snd)
  else p

def stKp2d (a : Archive) (mods : List String) (total : Nat)
    (p : FS × Nat) : FS × Nat :=
  if modOn mods "keypoints2d" then
    ((extract_keypoints2d a p.fst total).fst,
     p.snd + (extract_keypoints2d a p.fst total).snd)
  else p

def stKp3d (a : Archive) (mods : List String) (total : Nat)
    (p : FS × Nat) : FS × Nat :=
  if modOn mods "keypoints3d" then
    ((extract_keypoints3d a p.fst total).fst,
     p.snd + (extract_keypoints3d a p.fst total).snd)
  else p

def stFlame (a : Archive) (mods : List String) (total : Nat)
    (p : FS × Nat) : FS × Nat :=
  if modOn mods "flame" then
    ((extract_flame a p.fst total).fst, p.snd + (extract_flame a p.fst total).snd)
  else p

def stUv (a : Archive) (mods : List String) (total : Nat)
    (p : FS × Nat) : FS × Nat :=
  if modOn mods "uv_textures" then
    ((extract_uv_textures a p.fst total).fst,
     p.snd + (extract_uv_textures a p.fst total).snd)
  else p

def stScan (a : Archive) (mods : List String) (p : FS × Nat) : FS × Nat :=
  if modOn mods "scan" then
    ((extract_scan a p.fst).fst, p.snd + (extract_scan a p.fst).snd)
  else p

def stScanMasks (a : Archive) (mods : List String) (available : List Nat)
    (p : FS × Nat) : FS × Nat :=
  if modOn mods "scan_masks" then
    ((extract_scan_masks a p.fst available).fst,
     p.snd + (extract_scan_masks a p.fst available).snd)
  else p

/-- The expression-only block of extract_performance (flame, UV
textures, scan mesh and scan masks, gated on the letter e in the
performance name). -/
def stExpr (a : Archive) (mods : List String) (perf : String) (total : Nat)
    (available : List Nat) (p : FS × Nat) : FS × Nat :=
  if strHasChar perf 'e' then
    stScanMasks a mods available (stScan a mods
      (stUv a mods total (stFlame a mods total p)))
  else p

/-- The full modality dispatch of extract_performance, in source
order. -/
def runModalities (cfg : Config) (a : Archive) (r : ReaderIF) (fs : FS)
    (perf : String) : FS × Nat :=
  stExpr a cfg.modalities perf a.num_frame (availableCameras a)
    (stKp3d a cfg.modalities a.num_frame
    (stKp2d a cfg.modalities a.num_frame
    (stImages r cfg.modalities (resolvedCameras cfg a) a.num_frame
    (stAudio a cfg.modalities perf
    (stCalib a cfg.modalities (resolvedCameras cfg a) (availableCameras a)
    (stMeta cfg.modalities (fs, 0)))))))

/-- StreamingExtractor.extract_performance: short-circuit on the
.extraction_complete marker unless force_reextract, then run the
selected modality extractors in source order, write the marker, and
record a completed manifest row.  The ReaderIF argument is the decode
interface of the freshly opened SMCReader (possibly wrapped with
injected faults). -/
def extract_performance (cfg : Config) (a : Archive) (r : ReaderIF)
    (m : List ManifestRow) (fs : FS) (subj perf now : String) :
    FS × List ManifestRow × Nat :=
  if (dictFind fs FileKey.marker).isSome && !cfg.force_reextract then
    (fs, m, 0)
  else
    let p := runModalities cfg a r fs perf
    let fsDone := dictInsert p.fst FileKey.marker (.text "complete")
    let m2 := update_manifest m subj perf "completed"
      (some (resolvedCameras cfg a).length) (some a.num_frame)
      (some fsDone.length) none now
    (fsDone, m2, p.snd + 1)

/-- The download phase of StreamingExtractor.process_subject: for each
configured performance, the manifest is consulted first and a row whose
status is completed skips the download entirely; the returned list is
the set of performances for which a download is attempted. -/
def downloadAttempts (m : List ManifestRow) (subj : String)
    (performances : List String) : List String :=
  performances.filter (fun p =>
    match m.find? (fun r => rowMatches r subj p) with
    | some r => !(r.status == "completed")
    | none => true)

/-! The calibration block of extract_subject_FULL_both.py
(extract_full_performance): the full calibration dictionary is saved to
all_cameras.npy with no filtering against the Camera group, then one
per-camera file per selected camera (a get_Calibration assertion
failure aborts the block; writes before it stay on disk). -/

def fbCalibLoop (s : ReaderState) : List Nat → FS × Nat → FS × Nat
  | [], acc => acc
  | c :: rest, acc =>
    match get_Calibration s (pad2 c) with
    | .error _ => acc
    | .ok e => fbCalibLoop s rest (dictInsert acc.fst (FileKey.calibCam c) (.npyCam e), acc.snd + 1)

def extract_calibration_full_both (a : Archive) (fs : FS)
    (camera_list : List Nat) : FS × Nat :=
  let s := mkReader a
  let all_calibs := (get_Calibration_all s).fst
  let fs1 := dictInsert fs FileKey.calibAll (.npyAllCams all_calibs)
  fbCalibLoop s camera_list (fs1, 1)

/-- Boolean success test for Except values. -/
def isOkE {ε α : Type} : Except ε α → Bool
  | .ok _ => true
  | .error _ => false

instance {ε α : Type} [DecidableEq ε] [DecidableEq α] : DecidableEq (Except ε α) :=
  fun x y =>
    match x, y with
    | .ok a, .ok b =>
      match decEq a b with
      | isTrue h => isTrue (h ▸ rfl)
      | isFalse h => isFalse (fun he => h (Except.ok.inj he))
    | .error e, .error f =>
      match decEq e f with
      | isTrue h => isTrue (h ▸ rfl)
      | isFalse h => isFalse (fun he => h (Except.error.inj he))
    | .ok _, .error _ => isFalse (fun he => Except.noConfusion he)
    | .error _, .ok _ => isFalse (fun he => Except.noConfusion he)

/-! Concrete archives, filesystems and manifests used by the witness
and counterexample theorems below. -/

def emptyCam : CamData := { imageTypes := [], audio := none }

def wG1 : Gray := [[5, 0], [255, 7]]

def wA1 : Archive :=
  { actor_id := "0026", performance_part := "e0", num_device := 1, num_frame := 1,
    camera := [("13", { imageTypes := [("mask", [(4, Encoded.grayPng wG1)])],
                        audio := none })],
    calibG := [], kp2d := none, kp3d := none, flame := none,
    uvTexture := none, scan := none, scanMask := none }

def wCE0 : CalibEntry := ⟨[[0]], [[1]], [[2]]⟩

def wCE1 : CalibEntry := ⟨[[3]], [[4]], [[5]]⟩

def wCE6 : CalibEntry := ⟨[[6]], [[6]], [[6]]⟩

def wA2 : Archive :=
  { actor_id := "0026", performance_part := "s1_all", num_device := 2, num_frame := 0,
    camera := [("00", emptyCam), ("01", emptyCam)],
    calibG := [("00", wCE0), ("01", wCE1)],
    kp2d := none, kp3d := none, flame := none,
    uvTexture := none, scan := none, scanMask := none }

def cex3 : Archive :=
  { actor_id := "0026", performance_part := "s1_all", num_device := 1, num_frame := 1,
    camera := [("00", { imageTypes := [("color", [(0, Encoded.colorBytes [[[3]]])])],
                        audio := none })],
    calibG := [], kp2d := none, kp3d := none, flame := none,
    uvTexture := none, scan := none, scanMask := none }

def wA3 : Archive :=
  { actor_id := "0026", performance_part := "s1_all", num_device := 1, num_frame := 10,
    camera := [("25", { imageTypes := [("color", [(0, Encoded.colorBytes [[[9]]])])],
                        audio := none })],
    calibG := [],
    kp2d := some { num_frame := 10, cams := [("25", [(0, [[1, 2]])])] },
    kp3d := none, flame := none, uvTexture := none, scan := none, scanMask := none }

def cexS : Archive :=
  { actor_id := "0018", performance_part := "s1_all", num_device := 1, num_frame := 1,
    camera := [("00", { imageTypes := [], audio := some ([1, 2], 16000) })],
    calibG := [], kp2d := none, kp3d := none, flame := none,
    uvTexture := none, scan := none, scanMask := none }

def wA4 : Archive :=
  { actor_id := "0018", performance_part := "x0", num_device := 1, num_frame := 1,
    camera := [("00", emptyCam)],
    calibG := [], kp2d := none, kp3d := none, flame := none,
    uvTexture := none, scan := none, scanMask := none }

def wA5 : Archive :=
  { actor_id := "0026", performance_part := "s1_all", num_device := 1, num_frame := 1,
    camera := [("00", { imageTypes :=
        [("color", [(0, Encoded.colorBytes [[[4]]])]),
         ("mask", [(0, Encoded.grayPng [[8]])])], audio := none })],
    calibG := [], kp2d := none, kp3d := none, flame := none,
    uvTexture := none, scan := none, scanMask := none }

def cexUV : Archive :=
  { actor_id := "0026", performance_part := "e0", num_device := 1, num_frame := 1,
    camera := [("00", emptyCam)],
    calibG := [], kp2d := none, kp3d := none, flame := none,
    uvTexture := some [(0, Encoded.grayPng [[1]])], scan := none, scanMask := none }

def cexUVfs : FS := [(FileKey.uvFrame 0, FileData.text "old")]

def cex6 : Archive :=
  { actor_id := "0026", performance_part := "e0", num_device := 60, num_frame := 1,
    camera := [("00", emptyCam)],
    calibG := [("00", wCE0), ("06", wCE6)],
    kp2d := none, kp3d := none, flame := none,
    uvTexture := none, scan := none, scanMask := none }

def wA6 : Archive :=
  { actor_id := "0026", performance_part := "e0", num_device := 60, num_frame := 1,
    camera := [("00", emptyCam), ("07", emptyCam)],
    calibG := [("00", wCE0), ("06", wCE6)],
    kp2d := none, kp3d := none, flame := none,
    uvTexture := none, scan := none, scanMask := none }

def wRow7 : ManifestRow :=
  { subject := "0018", performance := "s1_all", status := "completed",
    cameras_extracted := some 2, frames := some 750, size_gb := some 12,
    timestamp := some "t0", error := none }

def wCfg : Config :=
  { cameras := none, modalities := ["images", "masks"], force_reextract := false }

def wCam8 : CamData :=
  { imageTypes := [("color", [(2, Encoded.colorBytes [[[2]]]), (0, Encoded.colorBytes [[[1]]])])],
    audio := none }

def wA8 : Archive :=
  { actor_id := "0026", performance_part := "s1_all", num_device := 1, num_frame := 3,
    camera := [("04", wCam8)],
    calibG := [], kp2d := none, kp3d := none, flame := none,
    uvTexture := none, scan := none, scanMask := none }

def wDec8 : Nat → Decoded :=
  fun f => if f = 0 then Decoded.colorI [[[1]]] else Decoded.colorI [[[2]]]

def wCam9 : CamData :=
  { imageTypes :=
      [("color", [(0, Encoded.colorBytes [[[5]]]), (1, Encoded.colorBytes [[[6]]])]),
       ("mask", [(0, Encoded.grayPng [[2]]), (1, Encoded.grayPng [[3]])])],
    audio := none }

def wA9 : Archive :=
  { actor_id := "0026", performance_part := "s1_all", num_device := 1, num_frame := 2,
    camera := [("25", wCam9)],
    calibG := [], kp2d := none, kp3d := none, flame := none,
    uvTexture := none, scan := none, scanMask := none }

def wBad9 : String → Nat → Bool := fun _ f => f == 1

def wRow10 : ManifestRow :=
  { subject := "0018", performance := "s1_all", status := "failed",
    cameras_extracted := some 2, frames := none, size_gb := none,
    timestamp := some "t0", error := some "boom" }

/-! Dictionary lemmas. -/

theorem dictFind_insert {α β : Type} [DecidableEq α]
    (m : List (α × β)) (k : α) (v : β) (k' : α) :
    dictFind (dictInsert m k v) k' = if k' = k then some v else dictFind m k' := by
  induction m with
  | nil =>
      simp only [dictInsert, dictFind]
      by_cases h : k' = k
      · subst h; simp
      · have h' : ¬ k = k' := fun he => h he.symm
        simp [h, h']
  | cons kv rest ih =>
      obtain ⟨k0, v0⟩ := kv
      by_cases h0 : k0 = k
      · subst h0
        simp only [dictInsert, if_pos rfl, dictFind]
        by_cases h : k' = k0
        · subst h; simp
        · have h' : ¬ k0 = k' := fun he => h he.symm
          simp [h, h']
      · simp only [dictInsert, if_neg h0, dictFind]
        by_cases h1 : k0 = k'
        · subst h1
          simp [h0]
        · simp [h1, ih]

theorem dictFind_insert_self {α β : Type} [DecidableEq α]
    (m : List (α × β)) (k : α) (v : β) :
    dictFind (dictInsert m k v) k = some v := by
  simp [dictFind_insert]

theorem dictFind_insert_ne {α β : Type} [DecidableEq α]
    (m : List (α × β)) (k : α) (v : β) (k' : α) (h : k' ≠ k) :
    dictFind (dictInsert m k v) k' = dictFind m k' := by
  simp [dictFind_insert, h]

theorem keysOf_insert_mem {α β : Type} [DecidableEq α]
    (m : List (α × β)) (k : α) (v : β) (k' : α)
    (h : k' ∈ keysOf (dictInsert m k v)) : k' = k ∨ k' ∈ keysOf m := by
  induction m with
  | nil => simpa [dictInsert, keysOf] using h
  | cons kv rest ih =>
      obtain ⟨k0, v0⟩ := kv
      by_cases h0 : k0 = k
      · subst h0
        simpa [dictInsert, keysOf] using h
      · simp only [dictInsert, h0, if_false, keysOf, List.map_cons, List.mem_cons] at h
        rcases h with h | h
        · right; simp [keysOf, h]
        · rcases ih h with h1 | h1
          · exact Or.inl h1
          · right; simp [keysOf] at h1 ⊢; exact Or.inr h1

theorem dictInsert_fresh {α β : Type} [DecidableEq α]
    (m : List (α × β)) (k : α) (v : β) (h : k ∉ keysOf m) :
    dictInsert m k v = m ++ [(k, v)] := by
  induction m with
  | nil => rfl
  | cons kv rest ih =>
      obtain ⟨k0, v0⟩ := kv
      have hk0 : ¬ k0 = k := by
        intro he; exact h (by simp [keysOf, he])
      have hrest : k ∉ keysOf rest := by
        intro he; exact h (by simp [keysOf] at he ⊢; exact Or.inr he)
      simp [dictInsert, hk0, ih hrest]

/-! Mask decode arithmetic. -/

theorem listMax_triple (v : Nat) : listMax [v, v, v] = v := by
  simp [listMax, List.foldl, Nat.zero_max, Nat.max_self]

theorem row_max_id (row : List Nat) (h : ∀ v ∈ row, v < 256) :
    (row.map (fun v => [v, v, v])).map (fun px => listMax px % 256) = row := by
  induction row with
  | nil => rfl
  | cons v vs ih =>
      have hv : v < 256 := h v (by simp)
      have hvs : ∀ u ∈ vs, u < 256 := fun u hu => h u (by simp [hu])
      simp [listMax_triple, Nat.mod_eq_of_lt hv, ih hvs]

theorem npMax_replicate3 (g : Gray) (h8 : Gray8 g) :
    npMaxAxis2U8 (replicate3 g) = g := by
  unfold npMaxAxis2U8 replicate3
  induction g with
  | nil => rfl
  | cons row rows ih =>
      have hrow : ∀ v ∈ row, v < 256 := h8 row (by simp)
      have hrows : Gray8 rows := fun r hr v hv => h8 r (by simp [hr]) v hv
      simp only [List.map_cons, List.cons.injEq]
      exact ⟨row_max_id row hrow, ih hrows⟩

/-- Claim C1: for a mask entry stored in an archive (a single-channel
PNG blob), decoding directly to grayscale is byte-identical to decoding
to a multi-channel color image and collapsing channels by per-pixel
maximum, which is exactly the reduction of the reader's get_img mask
path; the naive and optimized mask-decode methods agree and both equal
the stored channel. -/
theorem C1_mask_decode_equivalence (a : Archive) (cam : String) (f : Nat)
    (cd : CamData) (frames : List (Nat × Encoded)) (g : Gray)
    (hcam : dictFind a.camera cam = some cd)
    (htype : dictFind cd.imageTypes "mask" = some frames)
    (hframe : dictFind frames f = some (.grayPng g))
    (h8 : Gray8 g) :
    extract_mask_optimized_method (.grayPng g)
        = some (extract_mask_current_method (.grayPng g))
    ∧ getImgSingle a cam "mask" f
        = .ok (.grayI (extract_mask_current_method (.grayPng g)))
    ∧ extract_mask_current_method (.grayPng g) = g := by
  have hcur : extract_mask_current_method (.grayPng g) = g := by
    unfold extract_mask_current_method imdecodeColor
    exact npMax_replicate3 g h8
  refine ⟨?_, ?_, hcur⟩
  · unfold extract_mask_optimized_method imdecodeGrayscale
    rw [hcur]
  · simp [getImgSingle, hcam, htype, hframe, extract_mask_current_method]

/-- Witness for C1 at a concrete archive and 2 by 2 stored mask. -/
theorem C1_mask_decode_equivalence_witness :
    extract_mask_optimized_method (.grayPng wG1)
        = some (extract_mask_current_method (.grayPng wG1))
    ∧ getImgSingle wA1 "13" "mask" 4
        = .ok (.grayI (extract_mask_current_method (.grayPng wG1)))
    ∧ extract_mask_current_method (.grayPng wG1) = wG1 :=
  C1_mask_decode_equivalence wA1 "13" 4
    { imageTypes := [("mask", [(4, Encoded.grayPng wG1)])], audio := none }
    [(4, Encoded.grayPng wG1)] wG1 (by decide) (by decide) (by decide) (by decide)

/-! Calibration cache lemmas. -/

theorem buildCalibDict_eq_self (g : List (String × CalibEntry))
    (hnd : (keysOf g).Nodup) : buildCalibDict g = g := by
  have aux : ∀ (t acc : List (String × CalibEntry)), (keysOf t).Nodup →
      (∀ k ∈ keysOf t, k ∉ keysOf acc) →
      t.foldl (fun acc kv => dictInsert acc kv.fst ⟨kv.snd.D, kv.snd.K, kv.snd.RT⟩) acc
        = acc ++ t := by
    intro t
    induction t with
    | nil => intro acc _ _; simp
    | cons kv t2 ih =>
        intro acc hnd0 hdisj
        obtain ⟨k0, e0⟩ := kv
        simp only [keysOf, List.map_cons, List.nodup_cons] at hnd0
        have hfresh : k0 ∉ keysOf acc := hdisj k0 (by simp [keysOf])
        have hstep : dictInsert acc k0 (⟨e0.D, e0.K, e0.RT⟩ : CalibEntry)
            = acc ++ [(k0, e0)] := dictInsert_fresh acc k0 _ hfresh
        simp only [List.foldl_cons]
        rw [hstep, ih (acc ++ [(k0, e0)]) hnd0.2 ?fr]
        · simp
        case fr =>
          intro k hk
          have hk2 : k ∉ keysOf acc := by
            refine hdisj k ?_
            simp only [keysOf, List.map_cons, List.mem_cons]
            right; exact hk
          have hk0 : k ≠ k0 := by
            intro he; subst he
            simp only [keysOf] at hk
            exact hnd0.1 hk
          simp only [keysOf, List.map_append, List.map_cons, List.map_nil,
            List.mem_append, List.mem_singleton]
          rintro (h | h)
          · exact hk2 (by simpa [keysOf] using h)
          · exact hk0 h
  have := aux g [] hnd (by simp [keysOf])
  simpa [buildCalibDict] using this

/-- Claim C2: on a freshly opened archive handle, two consecutive
get_Calibration_all calls return equal dictionaries, the second call
returns the cached dictionary without re-running the expensive
Calibration-group read (load counter unchanged), and every cached
entry coincides with a fresh per-camera get_Calibration read. -/
theorem C2_calibration_memoization (s : ReaderState)
    (hfresh : s.calibCache = none)
    (hnd : (keysOf s.a.calibG).Nodup) :
    (get_Calibration_all (get_Calibration_all s).snd).fst = (get_Calibration_all s).fst
    ∧ (get_Calibration_all (get_Calibration_all s).snd).snd = (get_Calibration_all s).snd
    ∧ (get_Calibration_all s).snd.loadCount = s.loadCount + 1
    ∧ (get_Calibration_all (get_Calibration_all s).snd).snd.loadCount
        = (get_Calibration_all s).snd.loadCount
    ∧ ∀ ci e, dictFind s.a.calibG ci = some e →
        dictFind (get_Calibration_all s).fst ci = some e
        ∧ get_Calibration s ci = .ok e := by
  have h1 : get_Calibration_all s = (buildCalibDict s.a.calibG,
      { s with calibCache := some (buildCalibDict s.a.calibG),
               loadCount := s.loadCount + 1 }) := by
    unfold get_Calibration_all; rw [hfresh]
  have hb : buildCalibDict s.a.calibG = s.a.calibG := buildCalibDict_eq_self _ hnd
  refine ⟨by rw [h1]; rfl, by rw [h1]; rfl, by rw [h1], by rw [h1]; rfl, ?_⟩
  intro ci e hci
  constructor
  · rw [h1]
    show dictFind (buildCalibDict s.a.calibG) ci = some e
    rw [hb]; exact hci
  · simp [get_Calibration, hci]

/-- Witness for C2 on a concrete two-camera archive handle. -/
theorem C2_calibration_memoization_witness :
    (get_Calibration_all (get_Calibration_all (mkReader wA2)).snd).fst
        = (get_Calibration_all (mkReader wA2)).fst
    ∧ (get_Calibration_all (get_Calibration_all (mkReader wA2)).snd).snd
        = (get_Calibration_all (mkReader wA2)).snd
    ∧ (get_Calibration_all (mkReader wA2)).snd.loadCount = (mkReader wA2).loadCount + 1
    ∧ (get_Calibration_all (get_Calibration_all (mkReader wA2)).snd).snd.loadCount
        = (get_Calibration_all (mkReader wA2)).snd.loadCount
    ∧ ∀ ci e, dictFind (mkReader wA2).a.calibG ci = some e →
        dictFind (get_Calibration_all (mkReader wA2)).fst ci = some e
        ∧ get_Calibration (mkReader wA2) ci = .ok e :=
  C2_calibration_memoization (mkReader wA2) (by decide) (by decide)

/-- Counterexample to C3 as stated: a single-frame get_img call on a
camera id absent from the Camera group, or on a frame id absent for a
present camera, raises a validation error (AssertionError in the
source) instead of resolving to a not-found None result. -/
theorem C3_counterexample :
    get_img cex3 "06" "color" (.one 0) = .error "Invalid Camera_id 06"
    ∧ get_img cex3 "00" "color" (.one 5) = .error "Invalid Frame_id" := by
  decide

/-- Claim C3 (amended): a single-frame get_img call on a camera id or
frame id missing from the Camera group raises a hard validation error
rather than resolving to a not-found result; the not-found tier is
implemented by the keypoint accessors, e.g. get_Keypoints2d, which
returns None both when a validly-ranged camera has no detections at
all and when a specific in-range frame has no detection. -/
theorem C3_amended_missing_keys (a : Archive)
    (camX : String) (hX : dictFind a.camera camX = none)
    (t : String) (fAny : Nat)
    (camP : String) (cd : CamData) (frames : List (Nat × Encoded))
    (hP : dictFind a.camera camP = some cd)
    (ht : dictFind cd.imageTypes t = some frames)
    (fM : Nat) (hfM : dictFind frames fM = none)
    (g2 : GroupKp2d) (hg : a.kp2d = some g2)
    (camK : String) (hkRange : camK ∈ (List.range' 18 15).map pad2)
    (hkMiss : dictFind g2.cams camK = none) (fAny2 : Nat)
    (camK2 : String) (hk2Range : camK2 ∈ (List.range' 18 15).map pad2)
    (kframes : List (Nat × List (List Int)))
    (hk2 : dictFind g2.cams camK2 = some kframes)
    (fK : Nat) (hfKlt : fK < g2.num_frame) (hfK : dictFind kframes fK = none) :
    get_img a camX t (.one fAny) = .error ("Invalid Camera_id " ++ camX)
    ∧ get_img a camP t (.one fM) = .error "Invalid Frame_id"
    ∧ get_Keypoints2d a camK fAny2 = .ok none
    ∧ get_Keypoints2d a camK2 fK = .ok none := by
  refine ⟨?_, ?_, ?_, ?_⟩
  · simp [get_img, hX]
  · simp [get_img, hP, ht, getImgSingle, hfM, Except.map]
  · rw [get_Keypoints2d, if_pos hkRange, hg]
    simp [hkMiss]
  · rw [get_Keypoints2d, if_pos hk2Range, hg]
    simp [hk2, if_pos hfKlt, hfK]

/-- Witness for the amended C3 on a concrete archive. -/
theorem C3_amended_missing_keys_witness :
    get_img wA3 "06" "color" (.one 0) = .error "Invalid Camera_id 06"
    ∧ get_img wA3 "25" "color" (.one 5) = .error "Invalid Frame_id"
    ∧ get_Keypoints2d wA3 "20" 0 = .ok none
    ∧ get_Keypoints2d wA3 "25" 3 = .ok none :=
  C3_amended_missing_keys wA3 "06" (by decide) "color" 0 "25"
    { imageTypes := [("color", [(0, Encoded.colorBytes [[[9]]])])], audio := none }
    [(0, Encoded.colorBytes [[[9]]])] (by decide) (by decide) 5 (by decide)
    { num_frame := 10, cams := [("25", [(0, [[1, 2]])])] } (by decide)
    "20" (by decide) (by decide) 0
    "25" (by decide) [(0, [[1, 2]])] (by decide) 3 (by decide) (by decide)

/-- Counterexample to C4 as stated: on a speech-type archive that
carries no expression data, the gated accessors get_scanmask and
get_Keypoints3d raise a lookup error (KeyError on the absent group)
instead of returning None. -/
theorem C4_counterexample :
    partHas cexS 's' = true ∧ partHas cexS 'e' = false
    ∧ cexS.scanMask = none ∧ cexS.kp3d = none
    ∧ get_scanmask cexS "00" = .error "KeyError: ScanMask"
    ∧ get_Keypoints3d cexS 0 = .error "KeyError: Keypoints3d" := by
  decide

/-- Claim C4 (amended): on an archive lacking the capability derived
from its performance-part naming, get_FLAME, get_uv, get_scanmesh and
get_audio return None with a logged reason, but get_scanmask and
get_Keypoints3d carry no capability gate and raise a lookup error when
the backing group is absent. -/
theorem C4_amended_capability_gates (a : Archive) (f : Nat)
    (hnotE : partHas a 'e' = false) (hnotS : partHas a 's' = false)
    (camId : String) (hcam : camId ∈ keysOf a.camera)
    (hsm : a.scanMask = none) (hk3 : a.kp3d = none) :
    get_FLAME a f = .ok none
    ∧ get_uv a f = .ok none
    ∧ get_scanmesh a = .ok none
    ∧ get_audio a = .ok none
    ∧ get_scanmask a camId = .error "KeyError: ScanMask"
    ∧ get_Keypoints3d a f = .error "KeyError: Keypoints3d" := by
  refine ⟨?_, ?_, ?_, ?_, ?_, ?_⟩
  · simp [get_FLAME, hnotE]
  · simp [get_uv, hnotE]
  · simp [get_scanmesh, hnotE]
  · simp [get_audio, hnotS]
  · rw [get_scanmask, if_pos hcam, hsm]
  · simp [get_Keypoints3d, hk3]

/-- Witness for the amended C4 on a concrete archive whose performance
part has neither capability letter. -/
theorem C4_amended_capability_gates_witness :
    get_FLAME wA4 0 = .ok none
    ∧ get_uv wA4 0 = .ok none
    ∧ get_scanmesh wA4 = .ok none
    ∧ get_audio wA4 = .ok none
    ∧ get_scanmask wA4 "00" = .error "KeyError: ScanMask"
    ∧ get_Keypoints3d wA4 0 = .error "KeyError: Keypoints3d" :=
  C4_amended_capability_gates wA4 0 (by decide) (by decide) "00"
    (by decide) (by decide) (by decide)

/-! Image/mask extractor lemmas. -/

theorem dictFind_insert_of_none {α β : Type} [DecidableEq α]
    (m : List (α × β)) (key : α) (val : β) (k : α) (v : β)
    (hnone : dictFind m key = none) (h : dictFind m k = some v) :
    dictFind (dictInsert m key val) k = some v := by
  rcases eq_or_ne k key with he | hne
  · subst he; rw [h] at hnone; cases hnone
  · rw [dictFind_insert_ne m key val k hne]; exact h

theorem gw_preserves (fs : FS) (w : Nat) (key : FileKey)
    (res : Except String FileData) (k : FileKey) (v : FileData)
    (h : dictFind fs k = some v) :
    dictFind (guardedWrite fs w key res).fst k = some v := by
  unfold guardedWrite
  by_cases hn : (dictFind fs key).isNone
  · rw [if_pos hn]
    cases res with
    | ok d =>
        have hnone : dictFind fs key = none := Option.isNone_iff_eq_none.mp hn
        exact dictFind_insert_of_none fs key d k v hnone h
    | error e => exact h
  · rw [if_neg hn]; exact h

theorem gw_writesOnly (fs : FS) (w : Nat) (key : FileKey)
    (res : Except String FileData) (k : FileKey) (hk : k ≠ key) :
    dictFind (guardedWrite fs w key res).fst k = dictFind fs k := by
  unfold guardedWrite
  by_cases hn : (dictFind fs key).isNone
  · rw [if_pos hn]
    cases res with
    | ok d => exact dictFind_insert_ne fs key d k hk
    | error e => rfl
  · rw [if_neg hn]

theorem gw_skip (fs : FS) (w : Nat) (key : FileKey)
    (res : Except String FileData) (h : (dictFind fs key).isSome = true) :
    guardedWrite fs w key res = (fs, w) := by
  unfold guardedWrite
  have : ¬ (dictFind fs key).isNone = true := by
    cases hd : dictFind fs key with
    | none => rw [hd] at h; cases h
    | some d => simp
  rw [if_neg this]

theorem gw_write (fs : FS) (w : Nat) (key : FileKey) (d : FileData)
    (hnone : dictFind fs key = none) :
    guardedWrite fs w key (.ok d) = (dictInsert fs key d, w + 1) := by
  unfold guardedWrite
  rw [hnone]
  rfl

theorem imStep_preserves (r : ReaderIF) (dI dM : Bool) (cam : Nat)
    (acc : FS × Nat) (f : Nat) (k : FileKey) (v : FileData)
    (h : dictFind acc.fst k = some v) :
    dictFind (imStep r dI dM cam acc f).fst k = some v := by
  unfold imStep
  have h1 : dictFind (if dI then guardedWrite acc.fst acc.snd (FileKey.image cam f)
      ((r.getColor (pad2 cam) f).map .jpg) else acc).fst k = some v := by
    cases dI with
    | true => exact gw_preserves _ _ _ _ k v h
    | false => exact h
  cases dM with
  | true => exact gw_preserves _ _ _ _ k v h1
  | false => exact h1

theorem imStep_writesOnly (r : ReaderIF) (dI dM : Bool) (cam : Nat)
    (acc : FS × Nat) (f : Nat) (k : FileKey)
    (h1 : k ≠ FileKey.image cam f) (h2 : k ≠ FileKey.maskF cam f) :
    dictFind (imStep r dI dM cam acc f).fst k = dictFind acc.fst k := by
  cases dM with
  | true =>
    cases dI with
    | true =>
        exact (gw_writesOnly _ _ (FileKey.maskF cam f) _ k h2).trans
          (gw_writesOnly _ _ (FileKey.image cam f) _ k h1)
    | false =>
        exact gw_writesOnly _ _ (FileKey.maskF cam f) _ k h2
  | false =>
    cases dI with
    | true => exact gw_writesOnly _ _ (FileKey.image cam f) _ k h1
    | false => rfl

theorem imFrames_preserves (r : ReaderIF) (dI dM : Bool) (cam : Nat)
    (l : List Nat) (acc : FS × Nat) (k : FileKey) (v : FileData)
    (h : dictFind acc.fst k = some v) :
    dictFind (imFrames r dI dM cam l acc).fst k = some v := by
  induction l generalizing acc with
  | nil => exact h
  | cons f rest ih =>
      exact ih _ (imStep_preserves r dI dM cam acc f k v h)

theorem imFrames_writesOnly (r : ReaderIF) (dI dM : Bool) (cam : Nat)
    (l : List Nat) (acc : FS × Nat) (k : FileKey)
    (hk : ∀ f, k ≠ FileKey.image cam f ∧ k ≠ FileKey.maskF cam f) :
    dictFind (imFrames r dI dM cam l acc).fst k = dictFind acc.fst k := by
  induction l generalizing acc with
  | nil => rfl
  | cons f rest ih =>
      rw [imFrames, ih, imStep_writesOnly r dI dM cam acc f k (hk f).1 (hk f).2]

theorem imCams_preserves (r : ReaderIF) (dI dM : Bool) (total : Nat)
    (cl : List Nat) (acc : FS × Nat) (k : FileKey) (v : FileData)
    (h : dictFind acc.fst k = some v) :
    dictFind (imCams r dI dM total cl acc).fst k = some v := by
  induction cl generalizing acc with
  | nil => exact h
  | cons c rest ih =>
      exact ih _ (imFrames_preserves r dI dM c (List.range total) acc k v h)

theorem imFrames_writes (r : ReaderIF) (dI dM : Bool) (cam : Nat)
    (l : List Nat) (acc : FS × Nat) (f : Nat) (img : ColorImg)
    (hdI : dI = true) (hf : f ∈ l)
    (hok : r.getColor (pad2 cam) f = .ok img)
    (habs : dictFind acc.fst (FileKey.image cam f) = none) :
    dictFind (imFrames r dI dM cam l acc).fst (FileKey.image cam f)
      = some (.jpg img) := by
  induction l generalizing acc with
  | nil => cases hf
  | cons f0 rest ih =>
      rcases eq_or_ne f0 f with he | hne
      · subst he
        have hstep : dictFind (imStep r dI dM cam acc f0).fst (FileKey.image cam f0)
            = some (.jpg img) := by
          unfold imStep
          subst hdI
          simp only [if_pos]
          have hgw : guardedWrite acc.fst acc.snd (FileKey.image cam f0)
              ((r.getColor (pad2 cam) f0).map .jpg)
              = (dictInsert acc.fst (FileKey.image cam f0) (.jpg img), acc.snd + 1) := by
            rw [hok]
            exact gw_write acc.fst acc.snd (FileKey.image cam f0) (.jpg img) habs
          rw [hgw]
          have hself : dictFind (dictInsert acc.fst (FileKey.image cam f0) (.jpg img))
              (FileKey.image cam f0) = some (.jpg img) :=
            dictFind_insert_self _ _ _
          cases dM with
          | true =>
              exact gw_preserves _ _ _ _ _ _ hself
          | false => exact hself
        exact imFrames_preserves r dI dM cam rest _ _ _ hstep
      · have hne1 : FileKey.image cam f ≠ FileKey.image cam f0 := by
          intro he; cases he; exact hne rfl
        have hne2 : FileKey.image cam f ≠ FileKey.maskF cam f0 := by
          intro he; cases he
        have habs2 : dictFind (imStep r dI dM cam acc f0).fst (FileKey.image cam f)
            = none := by
          rw [imStep_writesOnly r dI dM cam acc f0 _ hne1 hne2]; exact habs
        have hf2 : f ∈ rest := by
          rcases List.mem_cons.mp hf with he | hm
          · exact absurd he.symm hne
          · exact hm
        exact ih _ hf2 habs2

theorem imCams_writes (r : ReaderIF) (dI dM : Bool) (total : Nat)
    (cl : List Nat) (acc : FS × Nat) (c f : Nat) (img : ColorImg)
    (hdI : dI = true) (hc : c ∈ cl) (hf : f ∈ List.range total)
    (hok : r.getColor (pad2 c) f = .ok img)
    (habs : dictFind acc.fst (FileKey.image c f) = none) :
    dictFind (imCams r dI dM total cl acc).fst (FileKey.image c f)
      = some (.jpg img) := by
  induction cl generalizing acc with
  | nil => cases hc
  | cons c0 rest ih =>
      rcases eq_or_ne c0 c with he | hne
      · subst he
        have hfr : dictFind (imFrames r dI dM c0 (List.range total) acc).fst
            (FileKey.image c0 f) = some (.jpg img) :=
          imFrames_writes r dI dM c0 (List.range total) acc f img hdI hf hok habs
        exact imCams_preserves r dI dM total rest _ _ _ hfr
      · have habs2 : dictFind (imFrames r dI dM c0 (List.range total) acc).fst
            (FileKey.image c f) = none := by
          rw [imFrames_writesOnly r dI dM c0 (List.range total) acc _ ?only]
          · exact habs
          case only =>
            intro f'
            constructor
            · intro he; cases he; exact hne rfl
            · intro he; cases he
        have hc2 : c ∈ rest := by
          rcases List.mem_cons.mp hc with he | hm
          · exact absurd he.symm hne
          · exact hm
        exact ih _ hc2 habs2

theorem isOkE_map {ε α β : Type} (f : α → β) (e : Except ε α) :
    isOkE (e.map f) = isOkE e := by
  cases e <;> rfl

theorem gw_present (fs : FS) (w : Nat) (key : FileKey)
    (res : Except String FileData) (hok : isOkE res = true) :
    (dictFind (guardedWrite fs w key res).fst key).isSome = true := by
  cases res with
  | error e => cases hok
  | ok d =>
    unfold guardedWrite
    by_cases hn : (dictFind fs key).isNone
    · rw [if_pos hn]
      show (dictFind (dictInsert fs key d) key).isSome = true
      rw [dictFind_insert_self]
      rfl
    · rw [if_neg hn]
      cases hd : dictFind fs key with
      | none => rw [hd] at hn; exact absurd rfl hn
      | some v => rfl

theorem gw_preserves_isSome (fs : FS) (w : Nat) (key : FileKey)
    (res : Except String FileData) (k : FileKey)
    (h : (dictFind fs k).isSome = true) :
    (dictFind (guardedWrite fs w key res).fst k).isSome = true := by
  cases hd : dictFind fs k with
  | none => rw [hd] at h; cases h
  | some v => rw [gw_preserves fs w key res k v hd]; rfl

theorem imStep_present (r : ReaderIF) (dI dM : Bool) (cam : Nat)
    (acc : FS × Nat) (f : Nat)
    (hokI : dI = true → isOkE (r.getColor (pad2 cam) f) = true)
    (hokM : dM = true → isOkE (r.getMask (pad2 cam) f) = true) :
    (dI = true →
      (dictFind (imStep r dI dM cam acc f).fst (FileKey.image cam f)).isSome = true)
    ∧ (dM = true →
      (dictFind (imStep r dI dM cam acc f).fst (FileKey.maskF cam f)).isSome = true) := by
  cases dM with
  | true =>
    cases dI with
    | true =>
      constructor
      · intro _
        have h1 : (dictFind (guardedWrite acc.fst acc.snd (FileKey.image cam f)
            ((r.getColor (pad2 cam) f).map .jpg)).fst (FileKey.image cam f)).isSome
            = true := by
          refine gw_present _ _ _ _ ?_
          rw [isOkE_map]; exact hokI rfl
        exact gw_preserves_isSome _ _ _ _ _ h1
      · intro _
        refine gw_present _ _ _ _ ?_
        rw [isOkE_map]; exact hokM rfl
    | false =>
      constructor
      · intro h; cases h
      · intro _
        refine gw_present _ _ _ _ ?_
        rw [isOkE_map]; exact hokM rfl
  | false =>
    cases dI with
    | true =>
      constructor
      · intro _
        refine gw_present _ _ _ _ ?_
        rw [isOkE_map]; exact hokI rfl
      · intro h; cases h
    | false =>
      exact ⟨(fun h => nomatch h), (fun h => nomatch h)⟩

theorem imStep_preserves_isSome (r : ReaderIF) (dI dM : Bool) (cam : Nat)
    (acc : FS × Nat) (f : Nat) (k : FileKey)
    (h : (dictFind acc.fst k).isSome = true) :
    (dictFind (imStep r dI dM cam acc f).fst k).isSome = true := by
  cases hd : dictFind acc.fst k with
  | none => rw [hd] at h; cases h
  | some v => rw [imStep_preserves r dI dM cam acc f k v hd]; rfl

theorem imFrames_preserves_isSome (r : ReaderIF) (dI dM : Bool) (cam : Nat)
    (l : List Nat) (acc : FS × Nat) (k : FileKey)
    (h : (dictFind acc.fst k).isSome = true) :
    (dictFind (imFrames r dI dM cam l acc).fst k).isSome = true := by
  cases hd : dictFind acc.fst k with
  | none => rw [hd] at h; cases h
  | some v => rw [imFrames_preserves r dI dM cam l acc k v hd]; rfl

theorem imCams_preserves_isSome (r : ReaderIF) (dI dM : Bool) (total : Nat)
    (cl : List Nat) (acc : FS × Nat) (k : FileKey)
    (h : (dictFind acc.fst k).isSome = true) :
    (dictFind (imCams r dI dM total cl acc).fst k).isSome = true := by
  cases hd : dictFind acc.fst k with
  | none => rw [hd] at h; cases h
  | some v => rw [imCams_preserves r dI dM total cl acc k v hd]; rfl

theorem imFrames_present (r : ReaderIF) (dI dM : Bool) (cam : Nat)
    (l : List Nat) (acc : FS × Nat)
    (hok : ∀ f ∈ l, (dI = true → isOkE (r.getColor (pad2 cam) f) = true)
                  ∧ (dM = true → isOkE (r.getMask (pad2 cam) f) = true))
    (f : Nat) (hf : f ∈ l) :
    (dI = true →
      (dictFind (imFrames r dI dM cam l acc).fst (FileKey.image cam f)).isSome = true)
    ∧ (dM = true →
      (dictFind (imFrames r dI dM cam l acc).fst (FileKey.maskF cam f)).isSome = true) := by
  induction l generalizing acc with
  | nil => cases hf
  | cons f0 rest ih =>
      rcases eq_or_ne f0 f with he | hne
      · subst he
        have hstep := imStep_present r dI dM cam acc f0
          (fun h => (hok f0 (by simp)).1 h) (fun h => (hok f0 (by simp)).2 h)
        constructor
        · intro hI
          exact imFrames_preserves_isSome r dI dM cam rest _ _ (hstep.1 hI)
        · intro hM
          exact imFrames_preserves_isSome r dI dM cam rest _ _ (hstep.2 hM)
      · have hf2 : f ∈ rest := by
          rcases List.mem_cons.mp hf with he | hm
          · exact absurd he.symm hne
          · exact hm
        exact ih _ (fun f1 hf1 => hok f1 (by simp [hf1])) hf2

theorem imCams_present (r : ReaderIF) (dI dM : Bool) (total : Nat)
    (cl : List Nat) (acc : FS × Nat)
    (hok : ∀ c ∈ cl, ∀ f ∈ List.range total,
      (dI = true → isOkE (r.getColor (pad2 c) f) = true)
      ∧ (dM = true → isOkE (r.getMask (pad2 c) f) = true))
    (c f : Nat) (hc : c ∈ cl) (hf : f ∈ List.range total) :
    (dI = true →
      (dictFind (imCams r dI dM total cl acc).fst (FileKey.image c f)).isSome = true)
    ∧ (dM = true →
      (dictFind (imCams r dI dM total cl acc).fst (FileKey.maskF c f)).isSome = true) := by
  induction cl generalizing acc with
  | nil => cases hc
  | cons c0 rest ih =>
      rcases eq_or_ne c0 c with he | hne
      · subst he
        have hfr := imFrames_present r dI dM c0 (List.range total) acc
          (fun f1 hf1 => hok c0 (by simp) f1 hf1) f hf
        constructor
        · intro hI
          exact imCams_preserves_isSome r dI dM total rest _ _ (hfr.1 hI)
        · intro hM
          exact imCams_preserves_isSome r dI dM total rest _ _ (hfr.2 hM)
      · have hc2 : c ∈ rest := by
          rcases List.mem_cons.mp hc with he | hm
          · exact absurd he.symm hne
          · exact hm
        exact ih _ (fun c1 hc1 => hok c1 (by simp [hc1])) hc2

theorem imStep_skip (r : ReaderIF) (dI dM : Bool) (cam : Nat)
    (acc : FS × Nat) (f : Nat)
    (himg : dI = true → (dictFind acc.fst (FileKey.image cam f)).isSome = true)
    (hmask : dM = true → (dictFind acc.fst (FileKey.maskF cam f)).isSome = true) :
    imStep r dI dM cam acc f = acc := by
  cases dM with
  | true =>
    cases dI with
    | true =>
      have h1 : guardedWrite acc.fst acc.snd (FileKey.image cam f)
          ((r.getColor (pad2 cam) f).map .jpg) = (acc.fst, acc.snd) :=
        gw_skip _ _ _ _ (himg rfl)
      have h2 : guardedWrite acc.fst acc.snd (FileKey.maskF cam f)
          ((r.getMask (pad2 cam) f).map .png) = (acc.fst, acc.snd) :=
        gw_skip _ _ _ _ (hmask rfl)
      show guardedWrite (guardedWrite acc.fst acc.snd (FileKey.image cam f)
          ((r.getColor (pad2 cam) f).map .jpg)).fst
          (guardedWrite acc.fst acc.snd (FileKey.image cam f)
          ((r.getColor (pad2 cam) f).map .jpg)).snd (FileKey.maskF cam f)
          ((r.getMask (pad2 cam) f).map .png) = acc
      rw [h1]
      exact h2
    | false =>
      show guardedWrite acc.fst acc.snd (FileKey.maskF cam f)
          ((r.getMask (pad2 cam) f).map .png) = acc
      exact gw_skip _ _ _ _ (hmask rfl)
  | false =>
    cases dI with
    | true =>
      show guardedWrite acc.fst acc.snd (FileKey.image cam f)
          ((r.getColor (pad2 cam) f).map .jpg) = acc
      exact gw_skip _ _ _ _ (himg rfl)
    | false => rfl

theorem imFrames_skip (r : ReaderIF) (dI dM : Bool) (cam : Nat)
    (l : List Nat) (acc : FS × Nat)
    (h : ∀ f ∈ l, (dI = true → (dictFind acc.fst (FileKey.image cam f)).isSome = true)
               ∧ (dM = true → (dictFind acc.fst (FileKey.maskF cam f)).isSome = true)) :
    imFrames r dI dM cam l acc = acc := by
  induction l with
  | nil => rfl
  | cons f0 rest ih =>
      have hstep : imStep r dI dM cam acc f0 = acc :=
        imStep_skip r dI dM cam acc f0 (h f0 (by simp)).1 (h f0 (by simp)).2
      show imFrames r dI dM cam rest (imStep r dI dM cam acc f0) = acc
      rw [hstep]
      exact ih (fun f1 hf1 => h f1 (by simp [hf1]))

theorem imCams_skip (r : ReaderIF) (dI dM : Bool) (total : Nat)
    (cl : List Nat) (acc : FS × Nat)
    (h : ∀ c ∈ cl, ∀ f ∈ List.range total,
      (dI = true → (dictFind acc.fst (FileKey.image c f)).isSome = true)
      ∧ (dM = true → (dictFind acc.fst (FileKey.maskF c f)).isSome = true)) :
    imCams r dI dM total cl acc = acc := by
  induction cl with
  | nil => rfl
  | cons c0 rest ih =>
      have hfr : imFrames r dI dM c0 (List.range total) acc = acc :=
        imFrames_skip r dI dM c0 (List.range total) acc
          (fun f hf => h c0 (by simp) f hf)
      show imCams r dI dM total rest (imFrames r dI dM c0 (List.range total) acc) = acc
      rw [hfr]
      exact ih (fun c1 hc1 f hf => h c1 (by simp [hc1]) f hf)

/-- Counterexample to C5 as stated: extract_uv_textures performs its
decode and write even when the destination file already exists — it
has no per-artifact existence check, so a second run of that extractor
re-does decode and write work and overwrites the file. -/
theorem C5_counterexample :
    (dictFind cexUVfs (FileKey.uvFrame 0)).isSome = true
    ∧ (extract_uv_textures cexUV cexUVfs 1).snd ≠ 0
    ∧ dictFind (extract_uv_textures cexUV cexUVfs 1).fst (FileKey.uvFrame 0)
        ≠ dictFind cexUVfs (FileKey.uvFrame 0) := by
  decide

/-- Claim C5 (amended): the images-and-masks extractor checks
destination existence before every per-frame decode and skips existing
files, so running it twice (with every requested decode succeeding)
leaves the file set of the first run byte-identical and the second run
performs zero decode and write work; the other extractors (e.g.
extract_uv_textures) lack the per-artifact check and re-do their work
when run again, and a completed task is instead short-circuited as a
whole by the completion marker. -/
theorem C5_amended_second_run_noop (r : ReaderIF) (fs : FS) (cl : List Nat)
    (total : Nat) (mods : List String)
    (hok : ∀ c ∈ cl, ∀ f ∈ List.range total,
      (modOn mods "images" = true → isOkE (r.getColor (pad2 c) f) = true)
      ∧ (modOn mods "masks" = true → isOkE (r.getMask (pad2 c) f) = true)) :
    extract_images_and_masks r (extract_images_and_masks r fs cl total mods).fst
        cl total mods
      = ((extract_images_and_masks r fs cl total mods).fst, 0) := by
  unfold extract_images_and_masks
  apply imCams_skip
  intro c hc f hf
  exact imCams_present r (modOn mods "images") (modOn mods "masks") total cl (fs, 0)
    hok c f hc hf

/-- Witness for the amended C5 on a concrete one-camera one-frame
archive. -/
theorem C5_amended_second_run_noop_witness :
    extract_images_and_masks (ReaderIF.ofArchive wA5)
        (extract_images_and_masks (ReaderIF.ofArchive wA5) [] [0] 1
          ["images", "masks"]).fst [0] 1 ["images", "masks"]
      = ((extract_images_and_masks (ReaderIF.ofArchive wA5) [] [0] 1
          ["images", "masks"]).fst, 0) :=
  C5_amended_second_run_noop (ReaderIF.ofArchive wA5) [] [0] 1 ["images", "masks"]
    (by decide)

/-! Calibration filtering lemmas. -/

theorem filteredCalibs_keys (all : List (String × CalibEntry))
    (available : List Nat) (k : String)
    (hk : k ∈ keysOf (filteredCalibs all available)) :
    ∃ c ∈ available, k = pad2 c := by
  have aux : ∀ (avail : List Nat) (acc : List (String × CalibEntry)),
      k ∈ keysOf (avail.foldl (fun acc c =>
        match dictFind all (pad2 c) with
        | some e => dictInsert acc (pad2 c) e
        | none => acc) acc) →
      k ∈ keysOf acc ∨ ∃ c ∈ avail, k = pad2 c := by
    intro avail
    induction avail with
    | nil => intro acc h; exact Or.inl h
    | cons c0 rest ih =>
        intro acc h
        simp only [List.foldl_cons] at h
        rcases ih _ h with h1 | h1
        · cases hd : dictFind all (pad2 c0) with
          | some e =>
              rw [hd] at h1
              rcases keysOf_insert_mem acc (pad2 c0) e k h1 with h2 | h2
              · exact Or.inr ⟨c0, by simp, h2⟩
              · exact Or.inl h2
          | none =>
              rw [hd] at h1
              exact Or.inl h1
        · obtain ⟨c, hc, he⟩ := h1
          exact Or.inr ⟨c, by simp [hc], he⟩
  rcases aux available [] hk with h | h
  · cases h
  · exact h

theorem scCalibLoop_writesOnly (filtered : List (String × CalibEntry))
    (cl : List Nat) (acc : FS × Nat) (k : FileKey)
    (hk : ∀ c, k ≠ FileKey.calibCam c) :
    dictFind (scCalibLoop filtered cl acc).fst k = dictFind acc.fst k := by
  induction cl generalizing acc with
  | nil => rfl
  | cons c rest ih =>
      unfold scCalibLoop
      cases hd : dictFind filtered (pad2 c) with
      | some e =>
          rw [ih (dictInsert acc.fst (FileKey.calibCam c) (.npyCam e), acc.snd + 1)]
          exact dictFind_insert_ne _ _ _ _ (hk c)
      | none => exact ih acc

/-- Counterexample to C6 as stated: the calibration block of
extract_subject_FULL_both persists the full calibration dictionary to
all_cameras with no filtering, so a camera id present in the
Calibration group but absent from the Camera group is persisted. -/
theorem C6_counterexample :
    dictFind (extract_calibration_full_both cex6 [] [0]).fst FileKey.calibAll
      = some (FileData.npyAllCams [("00", wCE0), ("06", wCE6)])
    ∧ "06" ∈ keysOf [("00", wCE0), ("06", wCE6)]
    ∧ "06" ∉ keysOf cex6.camera := by
  decide

/-- Claim C6 (amended): in the streaming extractor, every camera id
persisted to the calibration all_cameras output is one of the
archive's Camera-group ids — ids absent from the Camera group are
excluded even if requested or present in the Calibration group; the
FULL-both script's calibration block persists the Calibration group
unfiltered. -/
theorem C6_amended_calibration_filtered (a : Archive) (fs : FS) (cl : List Nat)
    (hwf : ∀ k ∈ keysOf a.camera, pad2 (strToNat k) = k) :
    ∃ d, dictFind (extract_calibration a fs cl (availableCameras a)).fst
          FileKey.calibAll = some (FileData.npyAllCams d)
       ∧ ∀ k ∈ keysOf d, k ∈ keysOf a.camera := by
  refine ⟨filteredCalibs (get_Calibration_all (mkReader a)).fst (availableCameras a),
    ?_, ?_⟩
  · show dictFind (scCalibLoop _ cl
        (dictInsert fs FileKey.calibAll (.npyAllCams _), 1)).fst FileKey.calibAll
      = _
    rw [scCalibLoop_writesOnly _ cl _ FileKey.calibAll (fun c => by intro h; cases h)]
    exact dictFind_insert_self _ _ _
  · intro k hk
    obtain ⟨c, hc, he⟩ := filteredCalibs_keys _ _ k hk
    subst he
    have hmem : c ∈ (keysOf a.camera).map strToNat := by
      have := (List.mem_insertionSort (· ≤ ·)).mp hc
      exact this
    obtain ⟨k0, hk0, he0⟩ := List.mem_map.mp hmem
    rw [← he0, hwf k0 hk0]
    exact hk0

/-- Witness for the amended C6 on a concrete archive whose Calibration
group holds a camera the Camera group lacks. -/
theorem C6_amended_calibration_filtered_witness :
    ∃ d, dictFind (extract_calibration wA6 [] [5] (availableCameras wA6)).fst
          FileKey.calibAll = some (FileData.npyAllCams d)
       ∧ ∀ k ∈ keysOf d, k ∈ keysOf wA6.camera :=
  C6_amended_calibration_filtered wA6 [] [5] (by decide)

/-- Claim C7: a task whose output directory already holds the
.extraction_complete marker, with force_reextract unset, short-circuits
to a no-op — the filesystem, the manifest and the work counter are all
untouched; and a task whose manifest row is completed is skipped in
process_subject before any download is attempted. -/
theorem C7_completed_short_circuit (cfg : Config) (a : Archive) (r : ReaderIF)
    (m : List ManifestRow) (fs : FS) (subj perf now : String)
    (d : FileData) (hmk : dictFind fs FileKey.marker = some d)
    (hforce : cfg.force_reextract = false)
    (row : ManifestRow) (perfs : List String)
    (hrow : m.find? (fun rr => rowMatches rr subj perf) = some row)
    (hst : row.status = "completed") :
    extract_performance cfg a r m fs subj perf now = (fs, m, 0)
    ∧ perf ∉ downloadAttempts m subj perfs := by
  constructor
  · simp [extract_performance, hmk, hforce]
  · intro hmem
    unfold downloadAttempts at hmem
    rw [List.mem_filter] at hmem
    obtain ⟨-, hpred⟩ := hmem
    rw [hrow] at hpred
    simp only [] at hpred
    rw [hst] at hpred
    simp at hpred

/-- Witness for C7 on a concrete marked task and completed manifest
row. -/
theorem C7_completed_short_circuit_witness :
    extract_performance wCfg wA9 (ReaderIF.ofArchive wA9) [wRow7]
        [(FileKey.marker, FileData.text "done")] "0018" "s1_all" "t1"
      = ([(FileKey.marker, FileData.text "done")], [wRow7], 0)
    ∧ "s1_all" ∉ downloadAttempts [wRow7] "0018" ["s1_all", "s2_all"] :=
  C7_completed_short_circuit wCfg wA9 (ReaderIF.ofArchive wA9) [wRow7]
    [(FileKey.marker, FileData.text "done")] "0018" "s1_all" "t1"
    (FileData.text "done") (by decide) (by decide) wRow7 ["s1_all", "s2_all"]
    (by decide) (by decide)

/-- Claim C10: update_manifest on an existing row overwrites only the
status, the timestamp and the fields passed with a value; every other
field, the row's key and all other rows are unchanged — in particular
an error text recorded by a failed run survives a later completed
update that passes no error. -/
theorem C10_update_manifest_in_place (pre post : List ManifestRow)
    (r : ManifestRow) (subj perf status now : String)
    (cameras frames size_gb : Option Nat) (err : Option String)
    (hpre : ∀ r0 ∈ pre, rowMatches r0 subj perf = false)
    (hr : rowMatches r subj perf = true) :
    update_manifest (pre ++ r :: post) subj perf status cameras frames size_gb err now
      = pre ++ applyRowUpdate r status cameras frames size_gb err now :: post
    ∧ (applyRowUpdate r status cameras frames size_gb err now).status = status
    ∧ (applyRowUpdate r status cameras frames size_gb err now).timestamp = some now
    ∧ (applyRowUpdate r status cameras frames size_gb err now).subject = r.subject
    ∧ (applyRowUpdate r status cameras frames size_gb err now).performance
        = r.performance
    ∧ (cameras = none →
        (applyRowUpdate r status cameras frames size_gb err now).cameras_extracted
          = r.cameras_extracted)
    ∧ (frames = none →
        (applyRowUpdate r status cameras frames size_gb err now).frames = r.frames)
    ∧ (size_gb = none →
        (applyRowUpdate r status cameras frames size_gb err now).size_gb = r.size_gb)
    ∧ (err = none →
        (applyRowUpdate r status cameras frames size_gb err now).error = r.error) := by
  have struct : ∀ (pre2 : List ManifestRow),
      (∀ r0 ∈ pre2, rowMatches r0 subj perf = false) →
      update_manifest (pre2 ++ r :: post) subj perf status cameras frames size_gb err now
        = pre2 ++ applyRowUpdate r status cameras frames size_gb err now :: post := by
    intro pre2 hpre2
    induction pre2 with
    | nil => simp [update_manifest, hr]
    | cons r0 pre3 ih =>
        have h0 : rowMatches r0 subj perf = false := hpre2 r0 (by simp)
        simp only [List.cons_append, update_manifest, h0]
        simp only [Bool.false_eq_true, if_false, List.cons.injEq, true_and]
        exact ih (fun r1 h1 => hpre2 r1 (by simp [h1]))
  refine ⟨struct pre hpre, rfl, rfl, rfl, rfl, ?_, ?_, ?_, ?_⟩
  · intro h; subst h; simp [applyRowUpdate]
  · intro h; subst h; simp [applyRowUpdate]
  · intro h; subst h; simp [applyRowUpdate]
  · intro h; subst h; simp [applyRowUpdate]

/-- Witness for C10: a failed row with error text updated to completed
with no error value keeps the stale error text. -/
theorem C10_update_manifest_in_place_witness :
    (update_manifest ([] ++ wRow10 :: []) "0018" "s1_all" "completed"
        none none none none "t1"
      = [] ++ applyRowUpdate wRow10 "completed" none none none none "t1" :: []
    ∧ (applyRowUpdate wRow10 "completed" none none none none "t1").status = "completed"
    ∧ (applyRowUpdate wRow10 "completed" none none none none "t1").timestamp = some "t1"
    ∧ (applyRowUpdate wRow10 "completed" none none none none "t1").subject
        = wRow10.subject
    ∧ (applyRowUpdate wRow10 "completed" none none none none "t1").performance
        = wRow10.performance
    ∧ ((none : Option Nat) = none →
        (applyRowUpdate wRow10 "completed" none none none none "t1").cameras_extracted
          = wRow10.cameras_extracted)
    ∧ ((none : Option Nat) = none →
        (applyRowUpdate wRow10 "completed" none none none none "t1").frames
          = wRow10.frames)
    ∧ ((none : Option Nat) = none →
        (applyRowUpdate wRow10 "completed" none none none none "t1").size_gb
          = wRow10.size_gb)
    ∧ ((none : Option String) = none →
        (applyRowUpdate wRow10 "completed" none none none none "t1").error
          = wRow10.error))
    ∧ (applyRowUpdate wRow10 "completed" none none none none "t1").error
        = some "boom" :=
  ⟨C10_update_manifest_in_place [] [] wRow10 "0018" "s1_all" "completed" "t1"
      none none none none (by simp) (by decide),
   by decide⟩

/-! Per-extractor frame lemmas at image keys: no extractor other than
the image/mask extractor ever touches an images/cam_CC/frame_FFFFFF.jpg
path. -/

theorem extract_metadata_image (fs : FS) (c f : Nat) :
    dictFind (extract_metadata fs).fst (FileKey.image c f)
      = dictFind fs (FileKey.image c f) :=
  dictFind_insert_ne _ _ _ _ (by intro he; cases he)

theorem extract_calibration_image (a : Archive) (fs : FS)
    (cl av : List Nat) (c f : Nat) :
    dictFind (extract_calibration a fs cl av).fst (FileKey.image c f)
      = dictFind fs (FileKey.image c f) :=
  (scCalibLoop_writesOnly _ cl _ _ (fun c0 => by intro he; cases he)).trans
    (dictFind_insert_ne _ _ _ _ (by intro he; cases he))

theorem extract_audio_image (a : Archive) (fs : FS) (c f : Nat) :
    dictFind (extract_audio a fs).fst (FileKey.image c f)
      = dictFind fs (FileKey.image c f) := by
  unfold extract_audio
  cases hg : get_audio a with
  | error e => rfl
  | ok o =>
    cases o with
    | none => rfl
    | some d =>
        exact (dictFind_insert_ne _ _ _ _ (by intro he; cases he)).trans
          (dictFind_insert_ne _ _ _ _ (by intro he; cases he))

theorem kp2dLoop_image (a : Archive) (total : Nat) (camsL : List Nat)
    (acc : FS × Nat) (c f : Nat) :
    dictFind (kp2dLoop a total camsL acc).fst (FileKey.image c f)
      = dictFind acc.fst (FileKey.image c f) := by
  induction camsL generalizing acc with
  | nil => rfl
  | cons cam rest ih =>
      unfold kp2dLoop
      by_cases he : (kp2dCollect a total cam).isEmpty = true
      · rw [if_pos he]; exact ih acc
      · rw [if_neg he, ih _]
        exact dictFind_insert_ne _ _ _ _ (by intro hx; cases hx)

theorem extract_keypoints2d_image (a : Archive) (fs : FS) (total : Nat) (c f : Nat) :
    dictFind (extract_keypoints2d a fs total).fst (FileKey.image c f)
      = dictFind fs (FileKey.image c f) :=
  kp2dLoop_image a total (List.range' 18 15) (fs, 0) c f

theorem extract_keypoints3d_image (a : Archive) (fs : FS) (total : Nat) (c f : Nat) :
    dictFind (extract_keypoints3d a fs total).fst (FileKey.image c f)
      = dictFind fs (FileKey.image c f) := by
  unfold extract_keypoints3d
  by_cases he : (kp3dCollect a total).isEmpty = true
  · rw [if_pos he]
  · rw [if_neg he]
    exact dictFind_insert_ne _ _ _ _ (by intro hx; cases hx)

theorem extract_flame_image (a : Archive) (fs : FS) (total : Nat) (c f : Nat) :
    dictFind (extract_flame a fs total).fst (FileKey.image c f)
      = dictFind fs (FileKey.image c f) := by
  unfold extract_flame
  cases hl : flameLoop a (sampleFrames total 5) [] with
  | none => rfl
  | some d =>
      dsimp only
      by_cases he : d.isEmpty = true
      · rw [if_pos he]
      · rw [if_neg he]
        exact dictFind_insert_ne _ _ _ _ (by intro hx; cases hx)

theorem uvLoop_image (a : Archive) (l : List Nat) (acc : FS × Nat) (c f : Nat) :
    dictFind (uvLoop a l acc).fst (FileKey.image c f)
      = dictFind acc.fst (FileKey.image c f) := by
  induction l generalizing acc with
  | nil => rfl
  | cons f0 rest ih =>
      unfold uvLoop
      cases hg : get_uv a f0 with
      | error e => rfl
      | ok o =>
        cases o with
        | none => exact ih acc
        | some img =>
            rw [ih _]
            exact dictFind_insert_ne _ _ _ _ (by intro hx; cases hx)

theorem extract_uv_textures_image (a : Archive) (fs : FS) (total : Nat) (c f : Nat) :
    dictFind (extract_uv_textures a fs total).fst (FileKey.image c f)
      = dictFind fs (FileKey.image c f) :=
  uvLoop_image a (sampleFrames total 30) (fs, 0) c f

theorem extract_scan_image (a : Archive) (fs : FS) (c f : Nat) :
    dictFind (extract_scan a fs).fst (FileKey.image c f)
      = dictFind fs (FileKey.image c f) := by
  unfold extract_scan
  cases hg : get_scanmesh a with
  | error e => rfl
  | ok o =>
    cases o with
    | none => rfl
    | some s => exact dictFind_insert_ne _ _ _ _ (by intro hx; cases hx)

theorem smLoop_image (a : Archive) (l : List Nat) (acc : FS × Nat) (c f : Nat) :
    dictFind (smLoop a l acc).fst (FileKey.image c f)
      = dictFind acc.fst (FileKey.image c f) := by
  induction l generalizing acc with
  | nil => rfl
  | cons c0 rest ih =>
      unfold smLoop
      cases hg : get_scanmask a (pad2 c0) with
      | error e => rfl
      | ok g =>
          rw [ih _]
          exact dictFind_insert_ne _ _ _ _ (by intro hx; cases hx)

theorem extract_scan_masks_image (a : Archive) (fs : FS) (av : List Nat) (c f : Nat) :
    dictFind (extract_scan_masks a fs av).fst (FileKey.image c f)
      = dictFind fs (FileKey.image c f) :=
  smLoop_image a av (fs, 0) c f

/-! Stage-level frame lemmas. -/

theorem stMeta_image (mods : List String) (p : FS × Nat) (c f : Nat) :
    dictFind (stMeta mods p).fst (FileKey.image c f)
      = dictFind p.fst (FileKey.image c f) := by
  unfold stMeta
  by_cases h : modOn mods "metadata" = true
  · rw [if_pos h]; exact extract_metadata_image p.fst c f
  · rw [if_neg h]

theorem stCalib_image (a : Archive) (mods : List String) (cl av : List Nat)
    (p : FS × Nat) (c f : Nat) :
    dictFind (stCalib a mods cl av p).fst (FileKey.image c f)
      = dictFind p.fst (FileKey.image c f) := by
  unfold stCalib
  by_cases h : modOn mods "calibration" = true
  · rw [if_pos h]; exact extract_calibration_image a p.fst cl av c f
  · rw [if_neg h]

theorem stAudio_image (a : Archive) (mods : List String) (perf : String)
    (p : FS × Nat) (c f : Nat) :
    dictFind (stAudio a mods perf p).fst (FileKey.image c f)
      = dictFind p.fst (FileKey.image c f) := by
  unfold stAudio
  by_cases h : (modOn mods "audio" && strHasChar perf 's') = true
  · rw [if_pos h]; exact extract_audio_image a p.fst c f
  · rw [if_neg h]

theorem stKp2d_image (a : Archive) (mods : List String) (total : Nat)
    (p : FS × Nat) (c f : Nat) :
    dictFind (stKp2d a mods total p).fst (FileKey.image c f)
      = dictFind p.fst (FileKey.image c f) := by
  unfold stKp2d
  by_cases h : modOn mods "keypoints2d" = true
  · rw [if_pos h]; exact extract_keypoints2d_image a p.fst total c f
  · rw [if_neg h]

theorem stKp3d_image (a : Archive) (mods : List String) (total : Nat)
    (p : FS × Nat) (c f : Nat) :
    dictFind (stKp3d a mods total p).fst (FileKey.image c f)
      = dictFind p.fst (FileKey.image c f) := by
  unfold stKp3d
  by_cases h : modOn mods "keypoints3d" = true
  · rw [if_pos h]; exact extract_keypoints3d_image a p.fst total c f
  · rw [if_neg h]

theorem stFlame_image (a : Archive) (mods : List String) (total : Nat)
    (p : FS × Nat) (c f : Nat) :
    dictFind (stFlame a mods total p).fst (FileKey.image c f)
      = dictFind p.fst (FileKey.image c f) := by
  unfold stFlame
  by_cases h : modOn mods "flame" = true
  · rw [if_pos h]; exact extract_flame_image a p.fst total c f
  · rw [if_neg h]

theorem stUv_image (a : Archive) (mods : List String) (total : Nat)
    (p : FS × Nat) (c f : Nat) :
    dictFind (stUv a mods total p).fst (FileKey.image c f)
      = dictFind p.fst (FileKey.image c f) := by
  unfold stUv
  by_cases h : modOn mods "uv_textures" = true
  · rw [if_pos h]; exact extract_uv_textures_image a p.fst total c f
  · rw [if_neg h]

theorem stScan_image (a : Archive) (mods : List String)
    (p : FS × Nat) (c f : Nat) :
    dictFind (stScan a mods p).fst (FileKey.image c f)
      = dictFind p.fst (FileKey.image c f) := by
  unfold stScan
  by_cases h : modOn mods "scan" = true
  · rw [if_pos h]; exact extract_scan_image a p.fst c f
  · rw [if_neg h]

theorem stScanMasks_image (a : Archive) (mods : List String) (av : List Nat)
    (p : FS × Nat) (c f : Nat) :
    dictFind (stScanMasks a mods av p).fst (FileKey.image c f)
      = dictFind p.fst (FileKey.image c f) := by
  unfold stScanMasks
  by_cases h : modOn mods "scan_masks" = true
  · rw [if_pos h]; exact extract_scan_masks_image a p.fst av c f
  · rw [if_neg h]

theorem stExpr_image (a : Archive) (mods : List String) (perf : String)
    (total : Nat) (av : List Nat) (p : FS × Nat) (c f : Nat) :
    dictFind (stExpr a mods perf total av p).fst (FileKey.image c f)
      = dictFind p.fst (FileKey.image c f) := by
  unfold stExpr
  by_cases h : strHasChar perf 'e' = true
  · rw [if_pos h, stScanMasks_image, stScan_image, stUv_image, stFlame_image]
  · rw [if_neg h]

theorem stImages_writes (r : ReaderIF) (mods : List String) (cl : List Nat)
    (total : Nat) (p : FS × Nat) (c f : Nat) (img : ColorImg)
    (hmod : modOn mods "images" = true)
    (hc : c ∈ cl) (hf : f ∈ List.range total)
    (hok : r.getColor (pad2 c) f = .ok img)
    (habs : dictFind p.fst (FileKey.image c f) = none) :
    dictFind (stImages r mods cl total p).fst (FileKey.image c f)
      = some (.jpg img) := by
  unfold stImages
  have hcond : (modOn mods "images" || modOn mods "masks") = true := by
    rw [hmod]; rfl
  rw [if_pos hcond]
  exact imCams_writes r (modOn mods "images") (modOn mods "masks") total cl
    (p.fst, 0) c f img hmod hc hf hok habs

theorem find?_cons_pos {α : Type} (p : α → Bool) (x : α) (l : List α)
    (h : p x = true) : List.find? p (x :: l) = some x := by
  unfold List.find?
  rw [h]

theorem find?_cons_neg {α : Type} (p : α → Bool) (x : α) (l : List α)
    (h : p x = false) : List.find? p (x :: l) = List.find? p l := by
  show (match p x with
    | true => some x
    | false => List.find? p l) = List.find? p l
  rw [h]

/-- After update_manifest records a status for the task key, the first
matching row of the manifest carries that status. -/
theorem update_manifest_find_status (m : List ManifestRow)
    (subj perf status : String) (cameras frames size_gb : Option Nat)
    (err : Option String) (now : String) :
    ((update_manifest m subj perf status cameras frames size_gb err now).find?
        (fun rr => rowMatches rr subj perf)).map ManifestRow.status = some status := by
  induction m with
  | nil =>
      have hm : rowMatches
          { subject := subj, performance := perf, status := status,
            cameras_extracted := cameras, frames := frames, size_gb := size_gb,
            timestamp := some now, error := err } subj perf = true := by
        simp [rowMatches]
      rw [show update_manifest [] subj perf status cameras frames size_gb err now
          = [{ subject := subj, performance := perf, status := status,
               cameras_extracted := cameras, frames := frames, size_gb := size_gb,
               timestamp := some now, error := err }] from rfl]
      rw [find?_cons_pos (fun rr => rowMatches rr subj perf) _ _ hm]
      rfl
  | cons r rest ih =>
      unfold update_manifest
      by_cases hm : rowMatches r subj perf = true
      · rw [if_pos hm]
        have hm2 : rowMatches (applyRowUpdate r status cameras frames size_gb err now)
            subj perf = true := by
          simpa [rowMatches, applyRowUpdate] using hm
        rw [find?_cons_pos (fun rr => rowMatches rr subj perf) _ _ hm2]
        rfl
      · rw [if_neg hm]
        rw [find?_cons_neg (fun rr => rowMatches rr subj perf) _ _
          (Bool.not_eq_true _ ▸ Bool.of_not_eq_true hm)]
        exact ih

/-- The no-marker run of extract_performance, written out. -/
theorem extract_performance_run (cfg : Config) (a : Archive) (r : ReaderIF)
    (m : List ManifestRow) (fs : FS) (subj perf now : String)
    (hmk : dictFind fs FileKey.marker = none) :
    extract_performance cfg a r m fs subj perf now
      = (dictInsert (runModalities cfg a r fs perf).fst FileKey.marker
          (.text "complete"),
         update_manifest m subj perf "completed"
           (some (resolvedCameras cfg a).length) (some a.num_frame)
           (some (dictInsert (runModalities cfg a r fs perf).fst FileKey.marker
             (.text "complete")).length) none now,
         (runModalities cfg a r fs perf).snd + 1) := by
  unfold extract_performance
  rw [if_neg (by rw [hmk]; simp)]

/-- Claim C9: with decode failures injected for arbitrary (camera,
frame) pairs, a run of extract_performance still completes — the
completion marker is written and the manifest row reads completed —
and every image whose decode does succeed (here one concrete good
(camera, frame) pair with no prior file) is still extracted; a failing
pair is caught inside the per-frame try and never aborts the task. -/
theorem C9_failure_isolation (cfg : Config) (a : Archive)
    (bad : String → Nat → Bool) (m : List ManifestRow) (fs : FS)
    (subj perf now : String) (c f : Nat) (img : ColorImg)
    (hmk : dictFind fs FileKey.marker = none)
    (hmod : modOn cfg.modalities "images" = true)
    (hc : c ∈ resolvedCameras cfg a)
    (hf : f ∈ List.range a.num_frame)
    (himg : (ReaderIF.withFaults (ReaderIF.ofArchive a) bad).getColor (pad2 c) f
      = .ok img)
    (habs : dictFind fs (FileKey.image c f) = none) :
    dictFind (extract_performance cfg a (ReaderIF.withFaults (ReaderIF.ofArchive a) bad)
        m fs subj perf now).fst (FileKey.image c f) = some (.jpg img)
    ∧ dictFind (extract_performance cfg a
        (ReaderIF.withFaults (ReaderIF.ofArchive a) bad)
        m fs subj perf now).fst FileKey.marker = some (.text "complete")
    ∧ ((extract_performance cfg a (ReaderIF.withFaults (ReaderIF.ofArchive a) bad)
        m fs subj perf now).snd.fst.find?
        (fun rr => rowMatches rr subj perf)).map ManifestRow.status
      = some "completed" := by
  have hrun := extract_performance_run cfg a
    (ReaderIF.withFaults (ReaderIF.ofArchive a) bad) m fs subj perf now hmk
  have habs2 : dictFind (stAudio a cfg.modalities perf
      (stCalib a cfg.modalities (resolvedCameras cfg a) (availableCameras a)
      (stMeta cfg.modalities (fs, 0)))).fst (FileKey.image c f) = none := by
    rw [stAudio_image, stCalib_image, stMeta_image]
    exact habs
  have himgDone : dictFind (runModalities cfg a
      (ReaderIF.withFaults (ReaderIF.ofArchive a) bad) fs perf).fst
      (FileKey.image c f) = some (.jpg img) := by
    unfold runModalities
    rw [stExpr_image, stKp3d_image, stKp2d_image]
    exact stImages_writes _ cfg.modalities (resolvedCameras cfg a) a.num_frame
      _ c f img hmod hc hf himg habs2
  refine ⟨?_, ?_, ?_⟩
  · rw [hrun]
    show dictFind (dictInsert _ FileKey.marker (FileData.text "complete")) _ = _
    rw [dictFind_insert_ne _ _ _ _ (by intro he; cases he)]
    exact himgDone
  · rw [hrun]
    exact dictFind_insert_self _ _ _
  · rw [hrun]
    exact update_manifest_find_status m subj perf "completed" _ _ _ none now

/-- Witness for C9 on a concrete archive with a decode failure
injected at frame 1 while frame 0 still extracts and the task
completes. -/
theorem C9_failure_isolation_witness :
    dictFind (extract_performance wCfg wA9
        (ReaderIF.withFaults (ReaderIF.ofArchive wA9) wBad9)
        [] [] "0026" "s1_all" "t1").fst (FileKey.image 25 0)
      = some (.jpg [[[5]]])
    ∧ dictFind (extract_performance wCfg wA9
        (ReaderIF.withFaults (ReaderIF.ofArchive wA9) wBad9)
        [] [] "0026" "s1_all" "t1").fst FileKey.marker = some (.text "complete")
    ∧ ((extract_performance wCfg wA9
        (ReaderIF.withFaults (ReaderIF.ofArchive wA9) wBad9)
        [] [] "0026" "s1_all" "t1").snd.fst.find?
        (fun rr => rowMatches rr "0026" "s1_all")).map ManifestRow.status
      = some "completed" :=
  C9_failure_isolation wCfg wA9 wBad9 [] [] "0026" "s1_all" "t1" 25 0 [[[5]]]
    (by decide) (by decide) (by decide) (by decide) (by decide) (by decide)

/-! Batch accessor lemmas. -/

theorem exceptMap_ok {ε α β : Type} (g : α → Except ε β) (dec : α → β)
    (l : List α) (h : ∀ x ∈ l, g x = .ok (dec x)) :
    exceptMap g l = .ok (l.map dec) := by
  induction l with
  | nil => rfl
  | cons x xs ih =>
      unfold exceptMap
      rw [h x (by simp)]
      dsimp only
      rw [ih (fun y hy => h y (by simp [hy]))]
      rfl

theorem exceptMap_error {ε α β : Type} (g : α → Except ε β) (l : List α)
    (x : α) (hx : x ∈ l) (hbad : isOkE (g x) = false) :
    ∃ e, exceptMap g l = .error e := by
  induction l with
  | nil => cases hx
  | cons y ys ih =>
      unfold exceptMap
      cases hg : g y with
      | error e => exact ⟨e, rfl⟩
      | ok v =>
          dsimp only
          rcases eq_or_ne x y with he | hne
          · subst he
            rw [hg] at hbad
            cases hbad
          · have hx2 : x ∈ ys := by
              rcases List.mem_cons.mp hx with h | h
              · exact absurd h hne
              · exact h
            obtain ⟨e, he2⟩ := ih hx2
            rw [he2]
            exact ⟨e, rfl⟩

/-- Claim C8: batched get_img with a list of frame ids returns the
decoded frames stacked in exactly the input order; with Frame_id None
it returns all stored frames in ascending numeric order; and a frame
missing from the archive inside a batch makes the whole batch call an
error rather than being skipped. -/
theorem C8_batch_order (a : Archive) (camId t : String) (cd : CamData)
    (frames : List (Nat × Encoded)) (dec : Nat → Decoded)
    (hcam : dictFind a.camera camId = some cd)
    (ht : dictFind cd.imageTypes t = some frames)
    (l : List Nat) (hl : l ≠ [])
    (hok : ∀ fi ∈ l, getImgSingle a camId t fi = .ok (dec fi))
    (hfr : frames ≠ [])
    (hokAll : ∀ fi ∈ keysOf frames, getImgSingle a camId t fi = .ok (dec fi))
    (lbad : List Nat) (fb : Nat) (hfb : fb ∈ lbad)
    (hbad : isOkE (getImgSingle a camId t fb) = false) :
    get_img a camId t (.many l) = .ok (.batch (l.map dec))
    ∧ get_img a camId t .all
        = .ok (.batch ((List.insertionSort (· ≤ ·) (keysOf frames)).map dec))
    ∧ List.Sorted (· ≤ ·) (List.insertionSort (· ≤ ·) (keysOf frames))
    ∧ ∃ e, get_img a camId t (.many lbad) = .error e := by
  refine ⟨?_, ?_, ?_, ?_⟩
  · unfold get_img
    rw [hcam]
    dsimp only
    rw [ht]
    dsimp only
    rw [exceptMap_ok _ _ _ hok]
    dsimp only
    cases l with
    | nil => exact absurd rfl hl
    | cons x xs => rfl
  · unfold get_img
    rw [hcam]
    dsimp only
    rw [ht]
    dsimp only
    rw [exceptMap_ok (getImgSingle a camId t) dec _
      (fun fi hfi => hokAll fi ((List.mem_insertionSort (· ≤ ·)).mp hfi))]
    dsimp only
    have hkne : keysOf frames ≠ [] := by
      cases frames with
      | nil => exact absurd rfl hfr
      | cons p ps => simp [keysOf]
    cases hs : List.insertionSort (· ≤ ·) (keysOf frames) with
    | nil =>
        exfalso
        have hperm := List.perm_insertionSort (· ≤ ·) (keysOf frames)
        rw [hs] at hperm
        exact hkne hperm.symm.eq_nil
    | cons y ys => rfl
  · exact List.sorted_insertionSort (· ≤ ·) (keysOf frames)
  · obtain ⟨e, he⟩ := exceptMap_error (getImgSingle a camId t) lbad fb hfb hbad
    refine ⟨e, ?_⟩
    unfold get_img
    rw [hcam]
    dsimp only
    rw [ht]
    dsimp only
    rw [he]

/-- Witness for C8 on a concrete archive with stored frames 0 and 2,
an in-order batch request, the all request, and a batch containing the
missing frame 1. -/
theorem C8_batch_order_witness :
    get_img wA8 "04" "color" (.many [2, 0, 2])
        = .ok (.batch ([2, 0, 2].map wDec8))
    ∧ get_img wA8 "04" "color" .all
        = .ok (.batch ((List.insertionSort (· ≤ ·)
            (keysOf [(2, Encoded.colorBytes [[[2]]]), (0, Encoded.colorBytes [[[1]]])])).map wDec8))
    ∧ List.Sorted (· ≤ ·) (List.insertionSort (· ≤ ·)
        (keysOf [(2, Encoded.colorBytes [[[2]]]), (0, Encoded.colorBytes [[[1]]])]))
    ∧ ∃ e, get_img wA8 "04" "color" (.many [0, 1]) = .error e :=
  C8_batch_order wA8 "04" "color" wCam8
    [(2, Encoded.colorBytes [[[2]]]), (0, Encoded.colorBytes [[[1]]])] wDec8
    (by decide) (by decide) [2, 0, 2] (by decide) (by decide) (by decide)
    (by decide) [0, 1] 1 (by decide) (by decide)

end R360
